import Mathlib

/-!
# Shallow embedding of the Keystone identity core

This file embeds, in Lean 4, the parts of the Keystone repository that the
claims C1..C10 are about:

* the domain records and the repository state (`Database`), mirroring the
  entity tables behind `keystone/backends/sqlalchemy` (`keystone/models.py`,
  `keystone/backends/sqlalchemy/models.py`);
* the repository API operations used by the identity core
  (`keystone/backends/sqlalchemy/api/{token,tenant,service,credentials}.py`,
  plus the role/user/endpoint-template operations whose files are not in the
  source tree and are therefore modelled from the spec);
* the identity core logic (`keystone/logic/service.py`): `validate_token`,
  the authentication funnel `IdentityService._authenticate`, the EC2 flow,
  `create_service`, `delete_service`, `delete_tenant`, and the admin-role
  predicates;
* the pagination marker queries of
  `keystone/backends/sqlalchemy/api/tenant.py`;
* the input-validation whitelists of `keystone/models.py` (Service, Role);
* the decision logic of the auth-token middleware
  (`keystone/middleware/auth_token.py`).

Conventions: Python timestamps (`datetime.now()`, `expires`) become `Nat`
seconds; `uuid.uuid4()` becomes an explicit `newId` parameter; Python
truthiness of optional strings (`if x:` is false for `None` and `""`) is
`truthy`; exceptions become `Except Fault`; an uncaught non-keystone Python
exception (e.g. `AttributeError`, `ValueError`) is the `Fault.pythonError`
kind.  Fault constructors carry no message text: the spec classifies
failures by kind only.
-/

/-- The keystone fault taxonomy (`keystone/logic/types/fault.py` is not in the
source tree; the kinds are those raised by `keystone/logic/service.py`:
BadRequestFault, UnauthorizedFault, ForbiddenFault, ItemNotFoundFault,
the *ConflictFault family, UserDisabledFault, TenantDisabledFault).
`pythonError` stands for an uncaught non-keystone exception. -/
inductive Fault where
  | badRequest
  | unauthorized
  | forbidden
  | itemNotFound
  | conflict
  | userDisabled
  | tenantDisabled
  | pythonError
deriving DecidableEq, Repr

/-- Python truthiness of an optional string: `None` and `""` are falsy. -/
def truthy (o : Option String) : Bool :=
  o.getD "" != ""

/-- Python `unicode(x)` on an optional string: `None` renders as `"None"`. -/
def pyStr (o : Option String) : String :=
  match o with
  | none => "None"
  | some s => s

/-- Split a character list at every occurrence of `ch`
(Python `str.split(sep)` with a one-character separator). -/
def splitOnChar (ch : Char) : List Char → List (List Char)
  | [] => [[]]
  | c :: cs =>
    let r := splitOnChar ch cs
    if c == ch then
      [] :: r
    else
      match r with
      | [] => [[c]]
      | h :: t => (c :: h) :: t

/-- Python `s.split(sep)` for a one-character separator. -/
def pySplit (s : String) (ch : Char) : List String :=
  (splitOnChar ch s.data).map (fun cs => String.mk cs)

/-- Python `sep in s` for a one-character needle. -/
def pyContains (s : String) (ch : Char) : Bool :=
  s.data.contains ch

/-- User row (`keystone.backends.sqlalchemy.models.User`). -/
structure DUser where
  id : String
  name : String
  password : Option String
  email : Option String
  enabled : Bool
  tenant_id : Option String
deriving DecidableEq, Repr

/-- Tenant row (the domain model view built by `TenantAPI.to_model`:
`enabled` is a `bool`). -/
structure DTenant where
  id : String
  name : String
  desc : String
  enabled : Bool
deriving DecidableEq, Repr

/-- Token row (`keystone.models.Token`). -/
structure DToken where
  id : String
  user_id : String
  tenant_id : Option String
  expires : Nat
deriving DecidableEq, Repr

/-- Role row. -/
structure DRole where
  id : String
  name : String
  desc : String
  service_id : Option String
deriving DecidableEq, Repr

/-- Service row (`ServiceAPI.to_model` exposes id, name, type, desc,
owner_id). -/
structure DService where
  id : String
  name : String
  type : String
  desc : String
  owner_id : String
deriving DecidableEq, Repr

/-- Endpoint template row (only the fields the claims touch). -/
structure DEndpointTemplate where
  id : String
  service_id : String
  is_global : Bool
deriving DecidableEq, Repr

/-- Endpoint row: tenant-scoped binding of an endpoint template. -/
structure DEndpoint where
  id : String
  tenant_id : String
  endpoint_template_id : String
deriving DecidableEq, Repr

/-- UserRoleAssociation row (role grant; `tenant_id = none` is global). -/
structure DUserRoleAssociation where
  id : String
  user_id : String
  role_id : String
  tenant_id : Option String
deriving DecidableEq, Repr

/-- EC2-style credentials row. -/
structure DCredentials where
  id : String
  user_id : String
  tenant_id : Option String
  type : String
  key : String
  secret : String
deriving DecidableEq, Repr

/-- The repository state: one list per table. -/
structure Database where
  tenants : List DTenant
  users : List DUser
  tokens : List DToken
  roles : List DRole
  services : List DService
  endpoint_templates : List DEndpointTemplate
  endpoints : List DEndpoint
  role_refs : List DUserRoleAssociation
  credentials : List DCredentials
deriving DecidableEq, Repr

/-- The process-wide role-name/role-id configuration
(`keystone.backends.ADMIN_ROLE_NAME` etc. and the lazily-resolved
`ADMIN_ROLE_ID` / `SERVICE_ADMIN_ROLE_ID`). -/
structure Globals where
  admin_role_name : String
  service_admin_role_name : String
  admin_role_id : Option String
  service_admin_role_id : Option String
deriving DecidableEq, Repr

/-! ## Repository API operations -/

/-- `UserAPI.get`: first user row with the given id. -/
def user_get (db : Database) (id : String) : Option DUser :=
  db.users.find? (fun u => u.id == id)

/-- `UserAPI.get_by_name`. -/
def user_get_by_name (db : Database) (name : String) : Option DUser :=
  db.users.find? (fun u => u.name == name)

/-- Modelled from the spec: `api.USER.get_by_tenant` (the sqlalchemy
`user.py` backend is not in the source tree).  Per §4.4.1 the user must be
associated with the tenant: either it is the user's default tenant or the
user holds a role grant on that tenant. -/
def user_get_by_tenant (db : Database) (user_id tenant_id : String) : Option DUser :=
  match user_get db user_id with
  | none => none
  | some u =>
    if u.tenant_id == some tenant_id
        || db.role_refs.any (fun r => r.user_id == user_id && r.tenant_id == some tenant_id) then
      some u
    else
      none

/-- `TenantAPI.get` (lookup by external uid; the uid/PK distinction is
collapsed into a single id space). -/
def tenant_get (db : Database) (id : String) : Option DTenant :=
  db.tenants.find? (fun t => t.id == id)

/-- `TenantAPI.get_by_name`. -/
def tenant_get_by_name (db : Database) (name : String) : Option DTenant :=
  db.tenants.find? (fun t => t.name == name)

/-- `TokenAPI.get`. -/
def token_get (db : Database) (id : String) : Option DToken :=
  db.tokens.find? (fun t => t.id == id)

/-- The rows matched by `TokenAPI.get_for_user_by_tenant`'s
`filter_by(user_id=user_id, tenant_id=tenant_id)`. -/
def pair_tokens (db : Database) (user_id : String) (tenant_id : Option String) : List DToken :=
  db.tokens.filter (fun t => t.user_id == user_id && t.tenant_id == tenant_id)

/-- `order_by("expires desc").first()`: a row of maximal `expires`
(ties broken arbitrarily by the store; here: the latest such row). -/
def maxByExpires : List DToken → Option DToken
  | [] => none
  | t :: ts =>
    match maxByExpires ts with
    | none => some t
    | some u => if t.expires < u.expires then some u else some t

/-- `TokenAPI.get_for_user_by_tenant`
(`keystone/backends/sqlalchemy/api/token.py`, lines 91-103). -/
def get_for_user_by_tenant (db : Database) (user_id : String)
    (tenant_id : Option String) : Option DToken :=
  maxByExpires (pair_tokens db user_id tenant_id)

/-- `TokenAPI.create`: INSERT appends a row. -/
def token_create (db : Database) (t : DToken) : Database :=
  { db with tokens := db.tokens ++ [t] }

/-- `RoleAPI.get_by_name` (spec §4.1 `get_by_name`; the sqlalchemy `role.py`
backend is not in the source tree). -/
def role_get_by_name (db : Database) (name : String) : Option DRole :=
  db.roles.find? (fun r => r.name == name)

/-- `RoleAPI.get` by id. -/
def role_get (db : Database) (id : String) : Option DRole :=
  db.roles.find? (fun r => r.id == id)

/-- Modelled from the spec: `api.ROLE.ref_get_all_global_roles(user_id)`
(§4.1 `global_roles_for_user`): the user's role grants with no tenant. -/
def ref_get_all_global_roles (db : Database) (user_id : String) :
    List DUserRoleAssociation :=
  db.role_refs.filter (fun r => r.user_id == user_id && r.tenant_id == none)

/-- Modelled from the spec: `api.ROLE.ref_get_all_tenant_roles(user_id,
tenant_id)` (§4.1 `tenant_roles_for_user`): grants on that tenant. -/
def ref_get_all_tenant_roles (db : Database) (user_id tenant_id : String) :
    List DUserRoleAssociation :=
  db.role_refs.filter (fun r => r.user_id == user_id && r.tenant_id == some tenant_id)

/-- Modelled from the spec: `api.ROLE.ref_get_by_role(role_id)`: all grants
of a role (used by the delete cascades). -/
def ref_get_by_role (db : Database) (role_id : String) : List DUserRoleAssociation :=
  db.role_refs.filter (fun r => r.role_id == role_id)

/-- Modelled from the spec: `api.ROLE.ref_delete(id)`: remove the grant row
with that primary key. -/
def ref_delete (db : Database) (id : String) : Database :=
  { db with role_refs := db.role_refs.filter (fun r => !(r.id == id)) }

/-- Modelled from the spec: `api.ROLE.get_by_service(service_id)`: roles
owned by the service. -/
def role_get_by_service (db : Database) (service_id : String) : List DRole :=
  db.roles.filter (fun r => r.service_id == some service_id)

/-- Modelled from the spec: `api.ROLE.delete(id)`: remove the role row with
that primary key. -/
def role_delete (db : Database) (id : String) : Database :=
  { db with roles := db.roles.filter (fun r => !(r.id == id)) }

/-- `ServiceAPI.get`. -/
def service_get (db : Database) (id : String) : Option DService :=
  db.services.find? (fun s => s.id == id)

/-- `ServiceAPI.get_by_name`. -/
def service_get_by_name (db : Database) (name : String) : Option DService :=
  db.services.find? (fun s => s.name == name)

/-- `ServiceAPI.create`: INSERT appends a row (the fresh primary key is the
`newId` argument threaded in by the caller). -/
def service_create (db : Database) (s : DService) : Database :=
  { db with services := db.services ++ [s] }

/-- `ServiceAPI.delete`: remove the service row (the `id` column is a
primary key, so deleting the first match and deleting every match
coincide). -/
def service_delete (db : Database) (id : String) : Database :=
  { db with services := db.services.filter (fun s => !(s.id == id)) }

/-- Modelled from the spec: `api.ENDPOINT_TEMPLATE.get_by_service` (the
sqlalchemy `endpoint_template.py` backend is not in the source tree). -/
def endpoint_template_get_by_service (db : Database) (service_id : String) :
    List DEndpointTemplate :=
  db.endpoint_templates.filter (fun et => et.service_id == service_id)

/-- Modelled from the spec: `api.ENDPOINT_TEMPLATE.delete(id)`. -/
def endpoint_template_delete (db : Database) (id : String) : Database :=
  { db with endpoint_templates :=
      db.endpoint_templates.filter (fun et => !(et.id == id)) }

/-- Modelled from the spec:
`api.ENDPOINT_TEMPLATE.endpoint_get_by_endpoint_template(id)`. -/
def endpoint_get_by_endpoint_template (db : Database) (et_id : String) :
    List DEndpoint :=
  db.endpoints.filter (fun e => e.endpoint_template_id == et_id)

/-- Modelled from the spec: `api.ENDPOINT_TEMPLATE.endpoint_delete(id)`:
remove the endpoint row with that primary key. -/
def endpoint_delete (db : Database) (id : String) : Database :=
  { db with endpoints := db.endpoints.filter (fun e => !(e.id == id)) }

/-- `TenantAPI.get_all_endpoints`: global endpoint templates unioned with
the templates bound to the tenant through the endpoints table
(`keystone/backends/sqlalchemy/api/tenant.py`, lines 282-304; SQL UNION
removes duplicates). -/
def get_all_endpoints (db : Database) (tenant_id : Option String) :
    List DEndpointTemplate :=
  let q := db.endpoint_templates.filter (fun et => et.is_global)
  if truthy tenant_id then
    let q1 := db.endpoint_templates.filter (fun et =>
      db.endpoints.any (fun e =>
        e.endpoint_template_id == et.id && e.tenant_id == tenant_id.getD ""))
    (q ++ q1).eraseDups
  else
    q

/-- `TenantAPI.is_empty`
(`keystone/backends/sqlalchemy/api/tenant.py`, lines 243-256): true iff no
UserRoleAssociation and no User references the tenant. -/
def tenant_is_empty (db : Database) (id : String) : Bool :=
  if db.role_refs.any (fun r => r.tenant_id == some id) then
    false
  else if db.users.any (fun u => u.tenant_id == some id) then
    false
  else
    true

/-- `TenantAPI.delete` (the tenant id is a key, so deleting the fetched row
and deleting every row with that id coincide). -/
def tenant_delete (db : Database) (id : String) : Database :=
  { db with tenants := db.tenants.filter (fun t => !(t.id == id)) }

/-- `CredentialsAPI.get_by_access`: first credentials row with
`type="EC2"` and the given key
(`keystone/backends/sqlalchemy/api/credentials.py`, lines 66-73). -/
def credentials_get_by_access (db : Database) (access : String) :
    Option DCredentials :=
  db.credentials.find? (fun c => c.type == "EC2" && c.key == access)

/-! ## Identity core logic (`keystone/logic/service.py`) -/

/-- `validate_tenant(dtenant)` (lines 279-288): missing tenant is
unauthorized; a tenant whose `enabled` does not read as true is
tenant-disabled. -/
def validate_tenant (dtenant : Option DTenant) : Except Fault DTenant :=
  match dtenant with
  | none => .error .unauthorized
  | some t => if t.enabled then .ok t else .error .tenantDisabled

/-- `validate_tenant_by_id(tenant_id)` (lines 174-180). -/
def validate_tenant_by_id (db : Database) (tenant_id : Option String) :
    Except Fault DTenant :=
  if truthy tenant_id then
    validate_tenant (tenant_get db (tenant_id.getD ""))
  else
    .error .unauthorized

/-- `validate_tenant_by_name(tenant_name)` (lines 183-189). -/
def validate_tenant_by_name (db : Database) (tenant_name : Option String) :
    Except Fault DTenant :=
  if truthy tenant_name then
    validate_tenant (tenant_get_by_name db (tenant_name.getD ""))
  else
    .error .unauthorized

/-- `get_token_info(token_id)` (lines 192-201): the token and, when the
token exists, its owning user. -/
def get_token_info (db : Database) (token_id : Option String) :
    Option DToken × Option DUser :=
  if truthy token_id then
    match token_get db (token_id.getD "") with
    | some token => (some token, user_get db token.user_id)
    | none => (none, none)
  else
    (none, none)

/-- `validate_token(token_id, belongs_to, is_check_token)`
(`keystone/logic/service.py`, lines 291-332).  `now` stands for
`datetime.now()`.  A token whose owning user row is missing makes the
source crash on `user.enabled` (AttributeError), rendered `pythonError`. -/
def validate_token (db : Database) (now : Nat) (token_id : Option String)
    (belongs_to : Option String) (is_check_token : Bool) :
    Except Fault (DToken × DUser) :=
  if truthy token_id then
    match get_token_info db token_id with
    | (none, _) =>
      if is_check_token then .error .itemNotFound else .error .unauthorized
    | (some token, user?) =>
      if token.expires < now then
        if is_check_token then .error .itemNotFound else .error .forbidden
      else
        match user? with
        | none => .error .pythonError
        | some user =>
          if user.enabled then
            match (if truthy user.tenant_id then
                     validate_tenant_by_id db user.tenant_id
                   else .ok ⟨"", "", "", true⟩) with
            | .error f => .error f
            | .ok _ =>
              match (if truthy token.tenant_id then
                       validate_tenant_by_id db token.tenant_id
                     else .ok ⟨"", "", "", true⟩) with
              | .error f => .error f
              | .ok _ =>
                if truthy belongs_to && pyStr token.tenant_id != belongs_to.getD "" then
                  .error .unauthorized
                else
                  .ok (token, user)
          else
            .error .userDisabled
  else
    .error .unauthorized

/-- `initialize_admin_role_identifiers()` (lines 119-131): resolve the two
well-known role names to ids when not yet cached. -/
def resolve_admin_role_identifiers (db : Database) (g : Globals) : Globals :=
  let g1 :=
    if g.service_admin_role_id == none then
      match role_get_by_name db g.service_admin_role_name with
      | some role => { g with service_admin_role_id := some role.id }
      | none => g
    else g
  if g1.admin_role_id == none then
    match role_get_by_name db g1.admin_role_name with
    | some role => { g1 with admin_role_id := some role.id }
    | none => g1
  else g1

/-- `has_role(env, user, role)` (lines 134-146): a global grant of `role`
(`role` may be the unresolved `None`, which matches nothing). -/
def has_role (db : Database) (user : DUser) (role : Option String) : Bool :=
  (ref_get_all_global_roles db user.id).any (fun r =>
    some r.role_id == role && r.tenant_id == none)

/-- `has_admin_role(token_id)` (lines 44-59): validate the token, then look
for the global admin role; Python's falsy `False` is `none`. -/
def has_admin_role (db : Database) (g : Globals) (now : Nat)
    (token_id : Option String) : Except Fault (Option (DToken × DUser)) :=
  match validate_token db now token_id none false with
  | .error f => .error f
  | .ok (token, user) =>
    let g1 := resolve_admin_role_identifiers db g
    if has_role db user g1.admin_role_id then
      .ok (some (token, user))
    else
      .ok none

/-- `has_service_admin_role(token_id)` (lines 62-78): service-admin role or,
failing that, the admin role. -/
def has_service_admin_role (db : Database) (g : Globals) (now : Nat)
    (token_id : Option String) : Except Fault (Option (DToken × DUser)) :=
  match validate_token db now token_id none false with
  | .error f => .error f
  | .ok (token, user) =>
    let g1 := resolve_admin_role_identifiers db g
    if has_role db user g1.service_admin_role_id then
      .ok (some (token, user))
    else
      has_admin_role db g now token_id

/-- `validate_admin_token(token_id)` (lines 81-94). -/
def validate_admin_token (db : Database) (g : Globals) (now : Nat)
    (token_id : Option String) : Except Fault (DToken × DUser) :=
  match has_admin_role db g now token_id with
  | .error f => .error f
  | .ok (some p) => .ok p
  | .ok none => .error .unauthorized

/-- `validate_service_admin_token(token_id)` (lines 97-116): accept on
service-admin rights, retry on plain admin rights, else unauthorized. -/
def validate_service_admin_token (db : Database) (g : Globals) (now : Nat)
    (token_id : Option String) : Except Fault (DToken × DUser) :=
  match has_service_admin_role db g now token_id with
  | .error f => .error f
  | .ok (some p) => .ok p
  | .ok none =>
    match has_admin_role db g now token_id with
    | .error f => .error f
    | .ok (some p) => .ok p
    | .ok none => .error .unauthorized

/-- `auth.Tenant` rendered into an authentication response. -/
structure AuthTenant where
  id : String
  name : String
deriving DecidableEq, Repr

/-- `auth.Token(expires, id, tenant)`. -/
structure AuthToken where
  expires : Nat
  id : String
  tenant : Option AuthTenant
deriving DecidableEq, Repr

/-- One role entry of the response (`Role(role_id, name, desc, tenant_id)`). -/
structure RoleOut where
  id : String
  name : String
  tenant_id : Option String
deriving DecidableEq, Repr

/-- `auth.User` of the response. -/
structure AuthUser where
  id : String
  name : String
  roles : List RoleOut
deriving DecidableEq, Repr

/-- `auth.AuthData(token, user, endpoints, url_types)`. -/
structure AuthData where
  token : AuthToken
  user : AuthUser
  endpoints : List DEndpointTemplate
  url_types : List String
deriving DecidableEq, Repr

/-- Resolve a list of role grants to response entries; a dangling
`role_id` makes the source crash on `drole.name`. -/
def roles_out (db : Database) (refs : List DUserRoleAssociation) :
    Except Fault (List RoleOut) :=
  match refs with
  | [] => .ok []
  | r :: rest =>
    match role_get db r.role_id with
    | none => .error .pythonError
    | some drole =>
      match roles_out db rest with
      | .error f => .error f
      | .ok l => .ok (⟨r.role_id, drole.name, r.tenant_id⟩ :: l)

/-- `get_auth_data(dtoken)` (lines 204-241): build the authentication
response for a token already persisted in `db`. -/
def get_auth_data (db : Database) (g : Globals) (now : Nat) (dtoken : DToken) :
    Except Fault AuthData :=
  let tenantStep : Except Fault (Option AuthTenant × List DEndpointTemplate) :=
    if truthy dtoken.tenant_id then
      match tenant_get db (dtoken.tenant_id.getD "") with
      | none => .error .pythonError
      | some dtenant =>
        .ok (some ⟨dtenant.id, dtenant.name⟩, get_all_endpoints db dtoken.tenant_id)
    else
      .ok (none, [])
  match tenantStep with
  | .error f => .error f
  | .ok (tenant, endpoints) =>
    let token : AuthToken := ⟨dtoken.expires, dtoken.id, tenant⟩
    match user_get db dtoken.user_id with
    | none => .error .pythonError
    | some duser =>
      let tenantRefs :=
        if truthy dtoken.tenant_id then
          ref_get_all_tenant_roles db duser.id (dtoken.tenant_id.getD "")
        else []
      match roles_out db (tenantRefs ++ ref_get_all_global_roles db duser.id) with
      | .error f => .error f
      | .ok ts =>
        match has_service_admin_role db g now (some token.id) with
        | .error f => .error f
        | .ok r =>
          let url_types :=
            if r.isSome then ["admin", "internal", "public"]
            else ["internal", "public"]
          .ok ⟨token, ⟨duser.id, duser.name, ts⟩, endpoints, url_types⟩

/-- `IdentityService._authenticate(validate, user_id, tenant_id)`
(`keystone/logic/service.py`, lines 425-455).  `validate` is the per-flow
credential check (it may itself raise, as the EC2 one can); `newId` stands
for `str(uuid.uuid4())`; a day is 86400 seconds. -/
def IdentityService_authenticate (db : Database) (g : Globals) (now : Nat)
    (newId : String) (validate : DUser → Except Fault Bool)
    (user_id : String) (tenant_id : Option String) :
    Except Fault (Database × AuthData) :=
  let duser? :=
    if truthy tenant_id then
      user_get_by_tenant db user_id (tenant_id.getD "")
    else
      user_get db user_id
  match duser? with
  | none => .error .unauthorized
  | some duser =>
    if duser.enabled then
      match validate duser with
      | .error f => .error f
      | .ok ok =>
        if ok then
          let tid := if truthy tenant_id then tenant_id else duser.tenant_id
          let reuse? : Option DToken :=
            match get_for_user_by_tenant db duser.id tid with
            | some t => if t.expires < now then none else some t
            | none => none
          match reuse? with
          | some dtoken =>
            match get_auth_data db g now dtoken with
            | .error f => .error f
            | .ok ad => .ok (db, ad)
          | none =>
            let dtoken : DToken := ⟨newId, duser.id, tid, now + 86400⟩
            let db2 := token_create db dtoken
            match get_auth_data db2 g now dtoken with
            | .error f => .error f
            | .ok ad => .ok (db2, ad)
        else
          .error .unauthorized
    else
      .error .userDisabled

/-- `UserAPI.check_password` is not in the source tree; modelled from the
spec (password credentials verify the stored secret). -/
def check_password (duser : DUser) (password : String) : Bool :=
  duser.password == some password

/-- `IdentityService.authenticate` with password credentials
(lines 354-374): resolve the tenant (by name or id), look the user up by
name, then funnel into `_authenticate` with the password check. -/
def IdentityService_authenticate_password (db : Database) (g : Globals)
    (now : Nat) (newId : String) (username password : String)
    (tenant_id tenant_name : Option String) :
    Except Fault (Database × AuthData) :=
  let scope : Except Fault (Option String) :=
    if truthy tenant_name then
      match validate_tenant_by_name db tenant_name with
      | .error f => .error f
      | .ok dtenant => .ok (some dtenant.id)
    else if truthy tenant_id then
      match validate_tenant_by_id db tenant_id with
      | .error f => .error f
      | .ok _ => .ok tenant_id
    else
      .ok tenant_id
  match scope with
  | .error f => .error f
  | .ok tid =>
    match user_get_by_name db username with
    | none => .error .unauthorized
    | some user =>
      IdentityService_authenticate db g now newId
        (fun duser => .ok (check_password duser password)) user.id tid

/-- The canonical EC2 request as the signer sees it
(`auth.Ec2Credentials`): only the fields `authenticate_ec2` touches are
kept, the rest of the canonical form is folded into `params`. -/
structure Ec2Creds where
  access : String
  signature : String
  host : String
  verb : String
  path : String
  params : List (String × String)
deriving DecidableEq, Repr

/-- The credential-check closure of `IdentityService.authenticate_ec2`
(lines 409-421): compare against the signature over the request as given;
on mismatch, when the host carries a port, strip it and compare once more.
`gen secret c` abstracts the pure signer `Signer(secret).generate(c)`
(`keystone/logic/signer.py` is outside the specified core).  Python's
`hostname, _port = host.split(":")` raises ValueError unless the split has
exactly two parts. -/
def ec2_validate (gen : String → Ec2Creds → String) (secret : String)
    (c : Ec2Creds) : Except Fault Bool :=
  let signature := gen secret c
  if signature == c.signature then
    .ok true
  else if pyContains c.host ':' then
    match pySplit c.host ':' with
    | [hostname, _port] =>
      .ok (gen secret { c with host := hostname } == c.signature)
    | _ => .error .pythonError
  else
    .ok false

/-- `IdentityService.authenticate_ec2(credentials)` (lines 399-423). -/
def IdentityService_authenticate_ec2 (db : Database) (g : Globals) (now : Nat)
    (newId : String) (gen : String → Ec2Creds → String) (credentials : Ec2Creds) :
    Except Fault (Database × AuthData) :=
  match credentials_get_by_access db credentials.access with
  | none => .error .unauthorized
  | some creds =>
    IdentityService_authenticate db g now newId
      (fun _duser => ec2_validate gen creds.secret credentials)
      creds.user_id creds.tenant_id

/-- The service payload handed to `create_service` (`keystone.models.Service`
input: name, type, description). -/
structure ServiceIn where
  name : String
  type : String
  description : String
deriving DecidableEq, Repr

/-- `IdentityService.create_service(admin_token, service)`
(`keystone/logic/service.py`, lines 1208-1228): service-admin check, then a
conflict when a service with the same *name* already exists, then the row is
created with the caller (resolved by `validate_token(admin_token)`) as
`owner_id`.  `newId` stands for the fresh primary key. -/
def IdentityService_create_service (db : Database) (g : Globals) (now : Nat)
    (admin_token : Option String) (newId : String) (service : ServiceIn) :
    Except Fault (Database × DService) :=
  match validate_service_admin_token db g now admin_token with
  | .error f => .error f
  | .ok _ =>
    if (service_get_by_name db service.name).isSome then
      .error .conflict
    else
      match validate_token db now admin_token none false with
      | .error f => .error f
      | .ok (_token, user) =>
        let dservice : DService :=
          ⟨newId, service.name, service.type, service.description, user.id⟩
        .ok (service_create db dservice, dservice)

/-- `IdentityService.delete_service(admin_token, service_id)`
(`keystone/logic/service.py`, lines 1259-1285): cascade the endpoint
templates (with their endpoints) and the roles (with their grants), then
remove the service row. -/
def IdentityService_delete_service (db : Database) (g : Globals) (now : Nat)
    (admin_token : Option String) (service_id : String) :
    Except Fault Database :=
  match validate_service_admin_token db g now admin_token with
  | .error f => .error f
  | .ok _ =>
    match service_get db service_id with
    | none => .error .itemNotFound
    | some _ =>
      let ets := endpoint_template_get_by_service db service_id
      let db1 := ets.foldl (fun d et =>
        let eps := endpoint_get_by_endpoint_template d et.id
        let d2 := eps.foldl (fun dd ep => endpoint_delete dd ep.id) d
        endpoint_template_delete d2 et.id) db
      let roles := role_get_by_service db1 service_id
      let db2 := roles.foldl (fun d role =>
        let refs := ref_get_by_role d role.id
        let d2 := refs.foldl (fun dd r => ref_delete dd r.id) d
        role_delete d2 role.id) db1
      .ok (service_delete db2 service_id)

/-- `IdentityService.delete_tenant(admin_token, tenant_id)`
(`keystone/logic/service.py`, lines 569-581): admin-only; not-found when
the tenant does not exist; forbidden while `TenantAPI.is_empty` reports a
referencing user or role grant. -/
def IdentityService_delete_tenant (db : Database) (g : Globals) (now : Nat)
    (admin_token : Option String) (tenant_id : String) :
    Except Fault Database :=
  match validate_admin_token db g now admin_token with
  | .error f => .error f
  | .ok _ =>
    match tenant_get db tenant_id with
    | none => .error .itemNotFound
    | some dtenant =>
      if tenant_is_empty db tenant_id then
        .ok (tenant_delete db dtenant.id)
      else
        .error .forbidden

/-! ## Pagination markers (`keystone/backends/sqlalchemy/api/tenant.py`)

The marker queries operate on the integer primary-key column; a table is
modelled by the list of its row ids. -/

/-- Insert into an ascending list. -/
def insertAsc (x : Nat) : List Nat → List Nat
  | [] => [x]
  | y :: ys => if x ≤ y then x :: y :: ys else y :: insertAsc x ys

/-- `order_by(id)`: ascending by id. -/
def sortAsc (l : List Nat) : List Nat :=
  l.foldr insertAsc []

/-- `order_by(id.desc())`: descending by id. -/
def sortDesc (l : List Nat) : List Nat :=
  (sortAsc l).reverse

/-- `TenantAPI.get_page_markers(marker, limit)` (lines 200-241): `first` and
`last` are the least and greatest ids; a null marker is replaced by
`first`; `next_page` lists ids greater than the marker ascending,
`prev_page` ids *less* than the marker descending, each limited; the
`for t in page: page = t` loops keep each query's last row. -/
def get_page_markers (ids : List Nat) (marker : Option Nat) (limit : Nat) :
    Option Nat × Option Nat :=
  match (sortAsc ids).head? with
  | none => (none, none)
  | some firstId =>
    let lastId := (sortDesc ids).headD firstId
    let m := marker.getD firstId
    let next_page := ((sortAsc ids).filter (fun i => m < i)).take limit
    let prev_page := ((sortDesc ids).filter (fun i => i < m)).take limit
    let nextP := next_page.getLastD lastId
    let prevP := prev_page.getLastD firstId
    ((if prevP == m then none else some prevP),
     (if nextP == lastId then none else some nextP))

/-- The `q3` union of `tenants_for_user_get_page_markers` (lines 149-154):
tenants joined through a UserRoleAssociation of the user, unioned with the
user's default tenant row (`uras` is the association table as
`(user_id, tenant_id)` pairs; SQL UNION removes duplicates). -/
def tenants_for_user_q3 (tenant_ids : List Nat) (uras : List (Nat × Nat))
    (user_id : Nat) (user_tenant_id : Option Nat) : List Nat :=
  (tenant_ids.filter (fun t => uras.any (fun a => a.1 == user_id && a.2 == t)) ++
   tenant_ids.filter (fun t => some t == user_tenant_id)).eraseDups

/-- `TenantAPI.tenants_for_user_get_page_markers(user, marker, limit)`
(lines 142-186), embedded exactly as written: unlike `get_page_markers`,
*both* the `next_page` and the `prev_page` query filter with
`tenant.id > marker` (line 166). -/
def tenants_for_user_get_page_markers (tenant_ids : List Nat)
    (uras : List (Nat × Nat)) (user_id : Nat) (user_tenant_id : Option Nat)
    (marker : Option Nat) (limit : Nat) : Option Nat × Option Nat :=
  let ids := tenants_for_user_q3 tenant_ids uras user_id user_tenant_id
  match (sortAsc ids).head? with
  | none => (none, none)
  | some firstId =>
    let lastId := (sortDesc ids).headD firstId
    let m := marker.getD firstId
    let next_page := ((sortAsc ids).filter (fun i => m < i)).take limit
    let prev_page := ((sortDesc ids).filter (fun i => m < i)).take limit
    let nextP := next_page.getLastD lastId
    let prevP := prev_page.getLastD firstId
    ((if prevP == m then none else some prevP),
     (if nextP == lastId then none else some nextP))

/-! ## Input whitelists (`keystone/models.py`) -/

/-- Modelled from the spec: `utils.is_empty_string` (`keystone/utils.py` is
not in the source tree; §7: empty required field is a bad request): absent
or whitespace-only. -/
def is_empty_string (v : Option String) : Bool :=
  match v with
  | none => true
  | some s => s.data.all Char.isWhitespace

/-- Attribute lookup on a parsed entity body (the dict the model object
holds after `update(object)`); values are kept as strings. -/
def attr_get (obj : List (String × String)) (k : String) : Option String :=
  (obj.find? (fun p => p.1 == k)).map (fun p => p.2)

/-- `Service.inspect(fail_fast)` (`keystone/models.py`, lines 455-478),
embedded exactly as written: the comprehension
`[key for key in result if key not in ['id', 'name', 'type', 'description']]`
iterates over the *error list* `result` — which `Resource.inspect` returns
empty — and not over the entity's attribute keys, so `invalid` is always
empty and the whitelist never rejects anything; the name/type emptiness
checks follow. -/
def Service_inspect (obj : List (String × String)) (fail_fast : Bool) :
    List Fault :=
  let result : List Fault := []
  let invalid := result
  let result := if invalid != ([] : List Fault) then result ++ [.badRequest] else result
  if fail_fast && result != [] then result
  else
    let result := if is_empty_string (attr_get obj "name") then result ++ [.badRequest] else result
    if fail_fast && result != [] then result
    else
      if is_empty_string (attr_get obj "type") then result ++ [.badRequest] else result

/-- `Resource.validate` as called from `Service.from_json` /
`Service.from_xml` (lines 157-169, 442-453): raise the first inspection
error, if any. -/
def Service_validate (obj : List (String × String)) : Except Fault Unit :=
  match Service_inspect obj true with
  | [] => .ok ()
  | e :: _ => .error e

/-- The attribute whitelist of `Role.from_json` (line 657). -/
def role_json_whitelist : List String :=
  ["id", "name", "description", "serviceId"]

/-- The unknown-attribute check of `Role.from_json` (`keystone/models.py`,
lines 650-661): reject when any key of the parsed body is outside the
whitelist. -/
def Role_from_json_check (obj : List (String × String)) : Except Fault Unit :=
  let invalid := (obj.map Prod.fst).filter (fun k => !(role_json_whitelist.contains k))
  if invalid != ([] : List String) then .error .badRequest else .ok ()

/-- `Role.from_xml` (lines 636-648) performs no attribute whitelist check at
all: every parsed body is accepted. -/
def Role_from_xml_check (_obj : List (String × String)) : Except Fault Unit :=
  .ok ()

/-! ## Auth-token middleware (`keystone/middleware/auth_token.py`) -/

/-- The middleware configuration options the decision logic reads. -/
structure MwConf where
  delay_auth_decision : Bool
  auth_location : String
  service_pass : String
deriving DecidableEq, Repr

/-- The `verified_claims` dict built by `_verify_claims` (lines 344-353). -/
structure MwClaims where
  user_id : String
  user_name : String
  tenant_id : Option String
  tenant_name : Option String
  roles : List String
  capabilities : Option (List String)
deriving DecidableEq, Repr

/-- A decorated header value: a plain string, Python `None`, or the
`"Proxy %s" % claims['user']` rendering of the user dict. -/
inductive HVal where
  | vstr (s : String)
  | vnone
  | vproxyUser (id name : String)
deriving DecidableEq, Repr

/-- The middleware's response: a 401 carrying the `WWW-Authenticate`
challenge (`_reject_request`, lines 283-288), a bare 401 with no challenge
(`_reject_claims`, lines 290-293), or a downstream forward with the
decorated headers. -/
inductive MwResponse where
  | rejectRequest (challenge : String)
  | rejectClaims
  | forward (headers : List (String × HVal))
deriving DecidableEq, Repr

/-- An optional claim value as a header value. -/
def optHVal : Option String → HVal
  | none => .vnone
  | some s => .vstr s

/-- The identity headers decorated on validation success
(`AuthProtocol.__call__`, lines 230-270, in source order). -/
def identity_headers (cl : MwClaims) : List (String × HVal) :=
  let roles := String.intercalate "," cl.roles
  [("X_IDENTITY_STATUS", .vstr "Confirmed"),
   ("X_AUTHORIZATION", .vproxyUser cl.user_id cl.user_name),
   ("X_TENANT_ID", optHVal cl.tenant_id),
   ("X_TENANT_NAME", optHVal cl.tenant_name),
   ("X_USER_ID", .vstr cl.user_id),
   ("X_USER_NAME", .vstr cl.user_name),
   ("X_ROLES", .vstr roles),
   ("X_TENANT", optHVal cl.tenant_id),
   ("X_USER", .vstr cl.user_id),
   ("X_ROLE", .vstr roles)] ++
  (match cl.capabilities with
   | some caps =>
     if caps.length > 0 then
       [("X_CAPABILITIES", .vstr (String.intercalate "," caps))]
     else []
   | none => [])

/-- `_forward_request` (lines 397-400) always adds the downstream
service authorization header before passing the request on. -/
def forward_headers (conf : MwConf) (hs : List (String × HVal)) :
    List (String × HVal) :=
  hs ++ [("AUTHORIZATION", .vstr ("Basic " ++ conf.service_pass))]

/-- `AuthProtocol.__call__` (lines 194-276).  `verify_claims` abstracts the
remote validation round-trip of `_verify_claims` (a non-2xx identity-service
answer raises `ValidationFailed`, modelled `none`); the claim is
`X-Auth-Token` with `X-Storage-Token` as fallback, and Python's `if not
claims:` also treats an empty header as absent. -/
def AuthProtocol_call (conf : MwConf)
    (verify_claims : String → Option MwClaims)
    (x_auth_token x_storage_token : Option String) : MwResponse :=
  let claims :=
    match x_auth_token with
    | some c => some c
    | none => x_storage_token
  if truthy claims then
    match verify_claims (claims.getD "") with
    | none =>
      if conf.delay_auth_decision then
        .forward (forward_headers conf [("X_IDENTITY_STATUS", .vstr "Invalid")])
      else
        .rejectClaims
    | some cl =>
      .forward (forward_headers conf (identity_headers cl))
  else
    if conf.delay_auth_decision then
      .forward (forward_headers conf [("X_IDENTITY_STATUS", .vstr "Invalid")])
    else
      .rejectRequest ("Keystone uri=\x27" ++ conf.auth_location ++ "\x27")

/-! ## Concrete repository states used by the witnesses -/

/-- Default globals: the configured role names, ids not yet resolved. -/
def g0 : Globals :=
  ⟨"Admin", "ServiceAdmin", none, none⟩

/-- A state with one enabled tenant and one enabled user whose default
tenant it is (the S1 seed of the spec). -/
def W1 : Database where
  tenants := [⟨"t1", "acme", "", true⟩]
  users := [⟨"u2", "alice", some "p", none, true, some "t1"⟩]
  tokens := []
  roles := []
  services := []
  endpoint_templates := []
  endpoints := []
  role_refs := []
  credentials := []

/-- A state with an admin (`u1`, global `Admin` grant, valid token `tokA`
expiring at 1000), a member user on tenant `t1`, an empty tenant `t2`, and
a service `s1` with an endpoint template, a bound endpoint, a service role
and its grant. -/
def WA : Database where
  tenants := [⟨"t1", "acme", "", true⟩, ⟨"t2", "blank", "", true⟩]
  users := [⟨"u1", "admin", some "pw", none, true, none⟩,
            ⟨"u9", "bob", some "pb", none, true, some "t1"⟩]
  tokens := [⟨"tokA", "u1", none, 1000⟩]
  roles := [⟨"rA", "Admin", "", none⟩, ⟨"rS", "nova:admin", "", some "s1"⟩]
  services := [⟨"s1", "nova", "compute", "", "u1"⟩]
  endpoint_templates := [⟨"et1", "s1", false⟩]
  endpoints := [⟨"e1", "t1", "et1"⟩]
  role_refs := [⟨"ref1", "u1", "rA", none⟩, ⟨"ref2", "u9", "rS", some "t1"⟩]
  credentials := []

/-- A state with a single disabled user. -/
def WD : Database where
  tenants := []
  users := [⟨"u3", "carl", some "p", none, false, none⟩]
  tokens := []
  roles := []
  services := []
  endpoint_templates := []
  endpoints := []
  role_refs := []
  credentials := []

/-- A concrete pure signer used by the EC2 witness: the secret joined with
the canonical host. -/
def genW (secret : String) (c : Ec2Creds) : String :=
  secret ++ "|" ++ c.host

/-- Decidable equality of results, used to evaluate the embedding at
concrete inputs. -/
instance {ε α : Type} [DecidableEq ε] [DecidableEq α] : DecidableEq (Except ε α) := fun a b =>
  match a, b with
  | .ok x, .ok y =>
    if h : x = y then .isTrue (by rw [h]) else .isFalse (by intro hh; cases hh; exact h rfl)
  | .error x, .error y =>
    if h : x = y then .isTrue (by rw [h]) else .isFalse (by intro hh; cases hh; exact h rfl)
  | .ok _, .error _ => .isFalse (by intro hh; cases hh)
  | .error _, .ok _ => .isFalse (by intro hh; cases hh)

/-- The §4.4.2 success condition of `validate_token`, rendered from the
spec's words: the token resolves, `token.expires > now` (strict), the
owning user exists and is enabled, the user's default tenant (if set)
exists and is enabled, the token's tenant (if scoped) exists and is
enabled, and `token.tenant_id == belongs_to` — equality of the optional
tenant values — when `belongs_to` is supplied.  The code diverges from
this condition at two places, which `valid_token_spec_amended` records. -/
def valid_token_spec (db : Database) (now : Nat) (token_id : Option String)
    (belongs_to : Option String) : Bool :=
  truthy token_id &&
  (match token_get db (token_id.getD "") with
   | none => false
   | some t =>
     decide (now < t.expires) &&
     (match user_get db t.user_id with
      | none => false
      | some u =>
        u.enabled &&
        (if truthy u.tenant_id then
           match tenant_get db (u.tenant_id.getD "") with
           | none => false
           | some te => te.enabled
         else true) &&
        (if truthy t.tenant_id then
           match tenant_get db (t.tenant_id.getD "") with
           | none => false
           | some te => te.enabled
         else true) &&
        (match belongs_to with
         | none => true
         | some b => t.tenant_id == some b)))

/-- The C2 success condition as amended, changed from `valid_token_spec`
only where the counterexamples force it: the expiry bound becomes
`expires ≥ now` (the code rejects only strictly-past tokens, so a token
expiring exactly at `now` is accepted), and the `belongs_to` clause
becomes the code's comparison of Python-unicode renderings — an empty
`belongs_to` disables the check, and an unscoped token renders as the
string "None", so `belongs_to = "None"` matches an unscoped token. -/
def valid_token_spec_amended (db : Database) (now : Nat)
    (token_id : Option String) (belongs_to : Option String) : Bool :=
  truthy token_id &&
  (match token_get db (token_id.getD "") with
   | none => false
   | some t =>
     decide (now ≤ t.expires) &&
     (match user_get db t.user_id with
      | none => false
      | some u =>
        u.enabled &&
        (if truthy u.tenant_id then
           match tenant_get db (u.tenant_id.getD "") with
           | none => false
           | some te => te.enabled
         else true) &&
        (if truthy t.tenant_id then
           match tenant_get db (t.tenant_id.getD "") with
           | none => false
           | some te => te.enabled
         else true) &&
        (if truthy belongs_to then pyStr t.tenant_id == belongs_to.getD "" else true)))

/-- The middleware configuration of the counterexample run:
delay-auth-decision off. -/
def confNoDelay : MwConf :=
  ⟨false, "http://auth.example.com", "sp"⟩

/-- The repository state `WA` after the `delete_service` cascade on `s1`. -/
def WAexp : Database :=
  { WA with
    roles := [⟨"rA", "Admin", "", none⟩]
    services := []
    endpoint_templates := []
    endpoints := []
    role_refs := [⟨"ref1", "u1", "rA", none⟩] }

/-! ## Helper lemmas -/

theorem maxByExpires_eq_none {l : List DToken} (h : maxByExpires l = none) : l = [] := by
  cases l with
  | nil => rfl
  | cons t ts =>
    cases h2 : maxByExpires ts with
    | none =>
      simp only [maxByExpires, h2] at h
      cases h
    | some u =>
      simp only [maxByExpires, h2] at h
      by_cases hlt : t.expires < u.expires <;> simp [hlt] at h

theorem maxByExpires_mem {l : List DToken} {t : DToken} (h : maxByExpires l = some t) :
    t ∈ l := by
  induction l generalizing t with
  | nil => cases h
  | cons x xs ih =>
    cases h2 : maxByExpires xs with
    | none =>
      simp only [maxByExpires, h2, Option.some.injEq] at h
      subst h
      exact List.mem_cons_self _ _
    | some u =>
      simp only [maxByExpires, h2] at h
      by_cases hlt : x.expires < u.expires
      · rw [if_pos hlt, Option.some.injEq] at h
        subst h
        exact List.mem_cons_of_mem _ (ih h2)
      · rw [if_neg hlt, Option.some.injEq] at h
        subst h
        exact List.mem_cons_self _ _

theorem maxByExpires_ge {l : List DToken} {t : DToken} (h : maxByExpires l = some t) :
    ∀ u ∈ l, u.expires ≤ t.expires := by
  induction l generalizing t with
  | nil => intro u hu; cases hu
  | cons x xs ih =>
    intro v hv
    cases h2 : maxByExpires xs with
    | none =>
      simp only [maxByExpires, h2, Option.some.injEq] at h
      subst h
      have hxs := maxByExpires_eq_none h2
      rcases List.mem_cons.mp hv with hvx | hv2
      · subst hvx; exact le_refl _
      · rw [hxs] at hv2; cases hv2
    | some u =>
      simp only [maxByExpires, h2] at h
      rcases List.mem_cons.mp hv with hvx | hv2
      · subst hvx
        by_cases hlt : v.expires < u.expires
        · rw [if_pos hlt, Option.some.injEq] at h
          subst h
          exact le_of_lt hlt
        · rw [if_neg hlt, Option.some.injEq] at h
          subst h
          exact le_refl _
      · have hle := ih h2 v hv2
        by_cases hlt : x.expires < u.expires
        · rw [if_pos hlt, Option.some.injEq] at h
          subst h
          exact hle
        · rw [if_neg hlt, Option.some.injEq] at h
          subst h
          exact le_trans hle (not_lt.mp hlt)

theorem get_auth_data_token {db : Database} {g : Globals} {now : Nat}
    {dt : DToken} {ad : AuthData} (h : get_auth_data db g now dt = .ok ad) :
    ad.token.id = dt.id ∧ ad.token.expires = dt.expires := by
  simp only [get_auth_data] at h
  split at h
  · cases h
  · split at h
    · cases h
    · split at h
      · cases h
      · split at h
        · cases h
        · injection h with h5
          subst h5
          exact ⟨rfl, rfl⟩

/-- C10: in `IdentityService._authenticate`, once the user row is resolved,
a disabled account fails with the user-disabled kind for *every* credential
validator — the validator is never consulted, so a wrong password or
signature still yields user-disabled, not unauthorized. -/
theorem authenticate_disabled_user_before_credentials
    (db : Database) (g : Globals) (now : Nat) (newId : String)
    (validate : DUser → Except Fault Bool) (user_id : String)
    (tenant_id : Option String) (duser : DUser)
    (hu : (if truthy tenant_id then user_get_by_tenant db user_id (tenant_id.getD "")
           else user_get db user_id) = some duser)
    (hd : duser.enabled = false) :
    IdentityService_authenticate db g now newId validate user_id tenant_id =
      .error .userDisabled := by
  simp only [IdentityService_authenticate, hu, hd, Bool.false_eq_true, if_false]

/-- C10 witness: the disabled user `u3` of `WD` receives the user-disabled
fault under a validator that rejects the presented credentials. -/
theorem authenticate_disabled_user_before_credentials_witness :
    IdentityService_authenticate WD g0 50 "nid" (fun _ => .ok false) "u3" none =
      .error .userDisabled :=
  authenticate_disabled_user_before_credentials WD g0 50 "nid" (fun _ => .ok false)
    "u3" none ⟨"u3", "carl", some "p", none, false, none⟩ (by decide) (by decide)

/-- C4: on the five-tenant collection {1..5} with marker 2 and limit 1, the
relationship variant `tenants_for_user_get_page_markers` returns the page
markers `(prev, next) = (some 5, some 3)` — its `prev` filter reads
`tenant.id > marker`, so the previous-page marker 5 lies *above* the
marker — while the per-entity `get_page_markers` on the same collection
returns the contract-conforming `(some 1, some 3)`. -/
theorem tenants_for_user_markers_prev_above_marker :
    tenants_for_user_get_page_markers [1, 2, 3, 4, 5]
        [(7, 1), (7, 2), (7, 3), (7, 4), (7, 5)] 7 none (some 2) 1 =
      (some 5, some 3)
    ∧ get_page_markers [1, 2, 3, 4, 5] (some 2) 1 = (some 1, some 3)
    ∧ 2 < 5 :=
  ⟨by decide, by decide, by decide⟩

/-- C6: a Service body with the unknown attribute `bogus` passes
`Service.from_json`'s validation (`Service.inspect` filters its own —
always empty — error list instead of the entity's keys), while the same
unknown attribute on a Role is rejected by `Role.from_json` and accepted by
`Role.from_xml`, which has no whitelist at all. -/
theorem service_unknown_attribute_not_rejected :
    Service_validate [("name", "nova"), ("type", "compute"), ("bogus", "x")] = .ok ()
    ∧ Role_from_json_check [("name", "r"), ("bogus", "x")] = .error .badRequest
    ∧ Role_from_xml_check [("name", "r"), ("bogus", "x")] = .ok () :=
  ⟨by decide, by decide, rfl⟩

/-- C2 counterexample: `validate_token` accepts at two inputs where the
claimed success condition (rendered by `valid_token_spec`) is false.
First, a token whose `expires` equals `now` is accepted — the code only
rejects `expires < now`, refuting the strict `token.expires > now` bound.
Second, an unscoped token is accepted against `belongs_to = "None"` — the
code compares `unicode(token.tenant_id)` to `unicode(belongs_to)` and
`unicode(None)` is the string "None" (service.py line 328), refuting the
claimed `token.tenant_id == belongs_to` equality, which is false for
`none` versus `some "None"`. -/
theorem validate_token_accepts_beyond_spec_condition :
    (validate_token WA 1000 (some "tokA") none false =
       .ok (⟨"tokA", "u1", none, 1000⟩, ⟨"u1", "admin", some "pw", none, true, none⟩)
     ∧ valid_token_spec WA 1000 (some "tokA") none = false)
    ∧ (validate_token WA 50 (some "tokA") (some "None") false =
         .ok (⟨"tokA", "u1", none, 1000⟩, ⟨"u1", "admin", some "pw", none, true, none⟩)
       ∧ valid_token_spec WA 50 (some "tokA") (some "None") = false) :=
  ⟨⟨by decide, by decide⟩, ⟨by decide, by decide⟩⟩

/-- C3 counterexample: `WA` holds the service `("nova", "compute")`; creating
`("nova", "volume")` — same name, different type — is rejected with the
conflict kind although no existing service matches on both name and type,
refuting the claimed `(name, type)` uniqueness rule. -/
theorem create_service_conflicts_despite_different_type :
    IdentityService_create_service WA g0 50 (some "tokA") "s9" ⟨"nova", "volume", "d"⟩ =
      .error .conflict
    ∧ (∀ s ∈ WA.services, ¬(s.name = "nova" ∧ s.type = "volume")) :=
  ⟨by decide, by decide⟩

/-- C7 counterexample: with delay-auth-decision off, a request whose token
the identity service rejects is answered by `_reject_claims` — a 401
carrying no `WWW-Authenticate` challenge — refuting the claimed uniform
challenge on rejection. -/
theorem middleware_rejected_token_lacks_challenge :
    AuthProtocol_call confNoDelay (fun _ => none) (some "tok") none = .rejectClaims
    ∧ ∀ s, AuthProtocol_call confNoDelay (fun _ => none) (some "tok") none ≠
        .rejectRequest s := by
  constructor
  · decide
  · intro s hs
    rw [show AuthProtocol_call confNoDelay (fun _ => none) (some "tok") none =
          .rejectClaims from by decide] at hs
    cases hs

/-- C1: whenever `IdentityService._authenticate` succeeds, the user row was
resolved and, writing `tid` for the requested tenant defaulted to the
user's tenant: either `get_for_user_by_tenant` returned a token of the
`(user, tid)` pair that is not yet expired and has the greatest `expires`
among the pair's tokens, and exactly that token is returned with the store
unchanged; or every token of the pair is expired (in particular none is
non-expired) and a fresh token with id `newId` and `expires = now + 86400`
(24 hours) is appended and returned. -/
theorem authenticate_reuses_freshest_or_creates
    (db : Database) (g : Globals) (now : Nat) (newId : String)
    (validate : DUser → Except Fault Bool) (user_id : String)
    (tenant_id : Option String) (db2 : Database) (ad : AuthData)
    (h : IdentityService_authenticate db g now newId validate user_id tenant_id =
           .ok (db2, ad)) :
    ∃ duser,
      (if truthy tenant_id then user_get_by_tenant db user_id (tenant_id.getD "")
       else user_get db user_id) = some duser ∧
      ((∃ t, get_for_user_by_tenant db duser.id
               (if truthy tenant_id then tenant_id else duser.tenant_id) = some t ∧
             t ∈ pair_tokens db duser.id
               (if truthy tenant_id then tenant_id else duser.tenant_id) ∧
             now ≤ t.expires ∧
             (∀ t2 ∈ pair_tokens db duser.id
                (if truthy tenant_id then tenant_id else duser.tenant_id),
                t2.expires ≤ t.expires) ∧
             ad.token.id = t.id ∧ ad.token.expires = t.expires ∧ db2 = db)
       ∨ ((∀ t2 ∈ pair_tokens db duser.id
             (if truthy tenant_id then tenant_id else duser.tenant_id),
             t2.expires < now) ∧
          ad.token.id = newId ∧ ad.token.expires = now + 86400 ∧
          db2.tokens = db.tokens ++
            [⟨newId, duser.id,
              (if truthy tenant_id then tenant_id else duser.tenant_id),
              now + 86400⟩])) := by
  simp only [IdentityService_authenticate] at h
  cases hu : (if truthy tenant_id then user_get_by_tenant db user_id (tenant_id.getD "")
              else user_get db user_id) with
  | none =>
    simp only [hu] at h
    cases h
  | some duser =>
    simp only [hu] at h
    refine ⟨duser, rfl, ?_⟩
    set tid := (if truthy tenant_id then tenant_id else duser.tenant_id) with htid
    cases he : duser.enabled with
    | false =>
      simp only [he, Bool.false_eq_true, if_false] at h
      cases h
    | true =>
      simp only [he, if_true] at h
      cases hv : validate duser with
      | error f =>
        simp only [hv] at h
        cases h
      | ok b =>
        simp only [hv] at h
        cases b with
        | false =>
          simp only [Bool.false_eq_true, if_false] at h
          cases h
        | true =>
          simp only [if_true] at h
          cases hr : get_for_user_by_tenant db duser.id tid with
          | none =>
            simp only [hr] at h
            have hemp : pair_tokens db duser.id tid = [] :=
              maxByExpires_eq_none
                (show maxByExpires (pair_tokens db duser.id tid) = none from hr)
            cases hg : get_auth_data (token_create db ⟨newId, duser.id, tid, now + 86400⟩)
                g now ⟨newId, duser.id, tid, now + 86400⟩ with
            | error f =>
              simp only [hg] at h
              cases h
            | ok ad2 =>
              simp only [hg] at h
              injection h with hpair
              injection hpair with hdb had
              subst hdb
              subst had
              refine Or.inr ⟨?_, ?_, ?_, rfl⟩
              · intro t2 ht2
                rw [hemp] at ht2
                cases ht2
              · exact (get_auth_data_token hg).1
              · exact (get_auth_data_token hg).2
          | some t =>
            simp only [hr] at h
            by_cases hex : t.expires < now
            · simp only [if_pos hex] at h
              cases hg : get_auth_data (token_create db ⟨newId, duser.id, tid, now + 86400⟩)
                  g now ⟨newId, duser.id, tid, now + 86400⟩ with
              | error f =>
                simp only [hg] at h
                cases h
              | ok ad2 =>
                simp only [hg] at h
                injection h with hpair
                injection hpair with hdb had
                subst hdb
                subst had
                refine Or.inr ⟨?_, ?_, ?_, rfl⟩
                · intro t2 ht2
                  have hle := maxByExpires_ge
                    (show maxByExpires (pair_tokens db duser.id tid) = some t from hr)
                    t2 ht2
                  exact lt_of_le_of_lt hle hex
                · exact (get_auth_data_token hg).1
                · exact (get_auth_data_token hg).2
            · simp only [if_neg hex] at h
              cases hg : get_auth_data db g now t with
              | error f =>
                simp only [hg] at h
                cases h
              | ok ad2 =>
                simp only [hg] at h
                injection h with hpair
                injection hpair with hdb had
                subst hdb
                subst had
                refine Or.inl ⟨t, rfl, ?_, not_lt.mp hex, ?_, ?_, ?_, rfl⟩
                · exact maxByExpires_mem
                    (show maxByExpires (pair_tokens db duser.id tid) = some t from hr)
                · exact maxByExpires_ge
                    (show maxByExpires (pair_tokens db duser.id tid) = some t from hr)
                · exact (get_auth_data_token hg).1
                · exact (get_auth_data_token hg).2

/-- C1 witness: authenticating `alice` (`u2`, default tenant `t1`) against
`W1` at time 50 with an accepting validator finds no token for the pair and
creates `⟨newtok, u2, t1, 86450⟩`. -/
theorem authenticate_reuses_freshest_or_creates_witness :
    ∃ duser,
      user_get W1 "u2" = some duser ∧
      ((∃ t, get_for_user_by_tenant W1 duser.id duser.tenant_id = some t ∧
             t ∈ pair_tokens W1 duser.id duser.tenant_id ∧
             50 ≤ t.expires ∧
             (∀ t2 ∈ pair_tokens W1 duser.id duser.tenant_id, t2.expires ≤ t.expires) ∧
             "newtok" = t.id ∧ 86450 = t.expires ∧
             ({ W1 with tokens := [⟨"newtok", "u2", some "t1", 86450⟩] } : Database) = W1)
       ∨ ((∀ t2 ∈ pair_tokens W1 duser.id duser.tenant_id, t2.expires < 50) ∧
          ("newtok" : String) = "newtok" ∧ (86450 : Nat) = 50 + 86400 ∧
          ({ W1 with tokens := [⟨"newtok", "u2", some "t1", 86450⟩] } : Database).tokens =
            W1.tokens ++ [⟨"newtok", duser.id, duser.tenant_id, 50 + 86400⟩])) :=
  authenticate_reuses_freshest_or_creates W1 g0 50 "newtok" (fun _ => .ok true) "u2" none
    { W1 with tokens := [⟨"newtok", "u2", some "t1", 86450⟩] }
    ⟨⟨86450, "newtok", some ⟨"t1", "acme"⟩⟩, ⟨"u2", "alice", []⟩, [], ["internal", "public"]⟩
    (by decide)

/-- C2 (amended): `validate_token` returns a `(token, user)` pair exactly
when the §4.4.2 conditions hold as amended by the counterexamples — the
expiry bound is `expires ≥ now` (the code rejects only strictly-past
tokens), and a supplied non-empty `belongs_to` must equal the
Python-unicode rendering of `token.tenant_id` (so an unscoped token, which
renders as "None", matches `belongs_to = "None"`) — and each failure is
classified as the spec's table says: missing id unauthorized; unknown
token unauthorized normally but not-found in the check-token flow; expired
token forbidden normally but not-found in the check-token flow; disabled
user user-disabled; disabled default or scope tenant tenant-disabled; and
a `belongs_to` mismatch (under that same rendered comparison)
unauthorized. -/
theorem validate_token_success_iff_and_fault_kinds
    (db : Database) (now : Nat) (token_id belongs_to : Option String)
    (chk : Bool) :
    ((∃ r, validate_token db now token_id belongs_to chk = .ok r) ↔
       valid_token_spec_amended db now token_id belongs_to = true) ∧
    (truthy token_id = false →
       validate_token db now token_id belongs_to chk = .error .unauthorized) ∧
    (truthy token_id = true → token_get db (token_id.getD "") = none →
       validate_token db now token_id belongs_to chk =
         .error (if chk then .itemNotFound else .unauthorized)) ∧
    (∀ t, truthy token_id = true → token_get db (token_id.getD "") = some t →
       t.expires < now →
       validate_token db now token_id belongs_to chk =
         .error (if chk then .itemNotFound else .forbidden)) ∧
    (∀ t u, truthy token_id = true → token_get db (token_id.getD "") = some t →
       ¬ t.expires < now → user_get db t.user_id = some u → u.enabled = false →
       validate_token db now token_id belongs_to chk = .error .userDisabled) ∧
    (∀ t u te, truthy token_id = true → token_get db (token_id.getD "") = some t →
       ¬ t.expires < now → user_get db t.user_id = some u → u.enabled = true →
       truthy u.tenant_id = true → tenant_get db (u.tenant_id.getD "") = some te →
       te.enabled = false →
       validate_token db now token_id belongs_to chk = .error .tenantDisabled) ∧
    (∀ t u te, truthy token_id = true → token_get db (token_id.getD "") = some t →
       ¬ t.expires < now → user_get db t.user_id = some u → u.enabled = true →
       (truthy u.tenant_id = true →
          ∃ tu, tenant_get db (u.tenant_id.getD "") = some tu ∧ tu.enabled = true) →
       truthy t.tenant_id = true → tenant_get db (t.tenant_id.getD "") = some te →
       te.enabled = false →
       validate_token db now token_id belongs_to chk = .error .tenantDisabled) ∧
    (∀ t u, truthy token_id = true → token_get db (token_id.getD "") = some t →
       ¬ t.expires < now → user_get db t.user_id = some u → u.enabled = true →
       (truthy u.tenant_id = true →
          ∃ tu, tenant_get db (u.tenant_id.getD "") = some tu ∧ tu.enabled = true) →
       (truthy t.tenant_id = true →
          ∃ tt, tenant_get db (t.tenant_id.getD "") = some tt ∧ tt.enabled = true) →
       truthy belongs_to = true → pyStr t.tenant_id ≠ belongs_to.getD "" →
       validate_token db now token_id belongs_to chk = .error .unauthorized) := by
  refine ⟨?_, ?_, ?_, ?_, ?_, ?_, ?_, ?_⟩
  · -- success iff
    by_cases htr : truthy token_id
    case neg =>
      simp [validate_token, valid_token_spec_amended, htr]
    case pos =>
      cases htok : token_get db (token_id.getD "") with
      | none =>
        cases chk <;>
          simp [validate_token, valid_token_spec_amended, get_token_info, htr, htok]
      | some t =>
        by_cases hex : t.expires < now
        case pos =>
          cases chk <;>
            simp [validate_token, valid_token_spec_amended, get_token_info, htr, htok,
              hex, Nat.not_le.mpr hex]
        case neg =>
          have hle : now ≤ t.expires := Nat.not_lt.mp hex
          cases hu : user_get db t.user_id with
          | none =>
            simp [validate_token, valid_token_spec_amended, get_token_info, htr, htok,
              hex, hle, hu]
          | some u =>
            cases hue : u.enabled with
            | false =>
              simp [validate_token, valid_token_spec_amended, get_token_info, htr,
                htok, hex, hle, hu, hue]
            | true =>
              by_cases hut : truthy u.tenant_id
              case pos =>
                cases htu : tenant_get db (u.tenant_id.getD "") with
                | none =>
                  simp [validate_token, valid_token_spec_amended, get_token_info,
                    validate_tenant_by_id, validate_tenant, htr, htok, hex,
                    hle, hu, hue, hut, htu]
                | some tu =>
                  cases htuen : tu.enabled with
                  | false =>
                    simp [validate_token, valid_token_spec_amended, get_token_info,
                      validate_tenant_by_id, validate_tenant, htr, htok, hex,
                      hle, hu, hue, hut, htu, htuen]
                  | true =>
                    by_cases htt : truthy t.tenant_id
                    case pos =>
                      cases htte : tenant_get db (t.tenant_id.getD "") with
                      | none =>
                        simp [validate_token, valid_token_spec_amended, get_token_info,
                          validate_tenant_by_id, validate_tenant, htr, htok,
                          hex, hle, hu, hue, hut, htu, htuen, htt, htte]
                      | some tt =>
                        cases htten : tt.enabled with
                        | false =>
                          simp [validate_token, valid_token_spec_amended,
                            get_token_info, validate_tenant_by_id,
                            validate_tenant, htr, htok, hex, hle, hu, hue,
                            hut, htu, htuen, htt, htte, htten]
                        | true =>
                          by_cases hb : truthy belongs_to
                          case pos =>
                            by_cases heq : pyStr t.tenant_id = belongs_to.getD ""
                            all_goals
                              simp [validate_token, valid_token_spec_amended,
                                get_token_info, validate_tenant_by_id,
                                validate_tenant, htr, htok, hex, hle, hu, hue,
                                hut, htu, htuen, htt, htte, htten, hb, heq]
                          case neg =>
                            simp [validate_token, valid_token_spec_amended,
                              get_token_info, validate_tenant_by_id,
                              validate_tenant, htr, htok, hex, hle, hu, hue,
                              hut, htu, htuen, htt, htte, htten, hb]
                    case neg =>
                      by_cases hb : truthy belongs_to
                      case pos =>
                        by_cases heq : pyStr t.tenant_id = belongs_to.getD ""
                        all_goals
                          simp [validate_token, valid_token_spec_amended,
                            get_token_info, validate_tenant_by_id,
                            validate_tenant, htr, htok, hex, hle, hu, hue,
                            hut, htu, htuen, htt, hb, heq]
                      case neg =>
                        simp [validate_token, valid_token_spec_amended, get_token_info,
                          validate_tenant_by_id, validate_tenant, htr, htok,
                          hex, hle, hu, hue, hut, htu, htuen, htt, hb]
              case neg =>
                by_cases htt : truthy t.tenant_id
                case pos =>
                  cases htte : tenant_get db (t.tenant_id.getD "") with
                  | none =>
                    simp [validate_token, valid_token_spec_amended, get_token_info,
                      validate_tenant_by_id, validate_tenant, htr, htok, hex,
                      hle, hu, hue, hut, htt, htte]
                  | some tt =>
                    cases htten : tt.enabled with
                    | false =>
                      simp [validate_token, valid_token_spec_amended, get_token_info,
                        validate_tenant_by_id, validate_tenant, htr, htok,
                        hex, hle, hu, hue, hut, htt, htte, htten]
                    | true =>
                      by_cases hb : truthy belongs_to
                      case pos =>
                        by_cases heq : pyStr t.tenant_id = belongs_to.getD ""
                        all_goals
                          simp [validate_token, valid_token_spec_amended,
                            get_token_info, validate_tenant_by_id,
                            validate_tenant, htr, htok, hex, hle, hu, hue,
                            hut, htt, htte, htten, hb, heq]
                      case neg =>
                        simp [validate_token, valid_token_spec_amended, get_token_info,
                          validate_tenant_by_id, validate_tenant, htr, htok,
                          hex, hle, hu, hue, hut, htt, htte, htten, hb]
                case neg =>
                  by_cases hb : truthy belongs_to
                  case pos =>
                    by_cases heq : pyStr t.tenant_id = belongs_to.getD ""
                    all_goals
                      simp [validate_token, valid_token_spec_amended, get_token_info,
                        validate_tenant_by_id, validate_tenant, htr, htok,
                        hex, hle, hu, hue, hut, htt, hb, heq]
                  case neg =>
                    simp [validate_token, valid_token_spec_amended, get_token_info,
                      validate_tenant_by_id, validate_tenant, htr, htok, hex,
                      hle, hu, hue, hut, htt, hb]
  · intro htr
    simp [validate_token, htr]
  · intro htr htok
    cases chk <;> simp [validate_token, get_token_info, htr, htok]
  · intro t htr htok hex
    cases chk <;> simp [validate_token, get_token_info, htr, htok, hex]
  · intro t u htr htok hex hu hue
    simp [validate_token, get_token_info, htr, htok, hex, hu, hue]
  · intro t u te htr htok hex hu hue hut htu hten
    simp [validate_token, get_token_info, validate_tenant_by_id,
      validate_tenant, htr, htok, hex, hu, hue, hut, htu, hten]
  · intro t u te htr htok hex hu hue hutok htt htte htten
    by_cases hut : truthy u.tenant_id
    · obtain ⟨tu, htu, htuen⟩ := hutok hut
      simp [validate_token, get_token_info, validate_tenant_by_id,
        validate_tenant, htr, htok, hex, hu, hue, hut, htu, htuen, htt,
        htte, htten]
    · simp [validate_token, get_token_info, validate_tenant_by_id,
        validate_tenant, htr, htok, hex, hu, hue, hut, htt, htte, htten]
  · intro t u htr htok hex hu hue hutok httok hb hne
    by_cases hut : truthy u.tenant_id
    · obtain ⟨tu, htu, htuen⟩ := hutok hut
      by_cases htt : truthy t.tenant_id
      · obtain ⟨tt, htte, htten⟩ := httok htt
        simp [validate_token, get_token_info, validate_tenant_by_id,
          validate_tenant, htr, htok, hex, hu, hue, hut, htu, htuen, htt,
          htte, htten, hb, hne]
      · simp [validate_token, get_token_info, validate_tenant_by_id,
          validate_tenant, htr, htok, hex, hu, hue, hut, htu, htuen, htt,
          hb, hne]
    · by_cases htt : truthy t.tenant_id
      · obtain ⟨tt, htte, htten⟩ := httok htt
        simp [validate_token, get_token_info, validate_tenant_by_id,
          validate_tenant, htr, htok, hex, hu, hue, hut, htt, htte, htten,
          hb, hne]
      · simp [validate_token, get_token_info, validate_tenant_by_id,
          validate_tenant, htr, htok, hex, hu, hue, hut, htt, hb, hne]

/-- C2 witness: the admin token `tokA` of `WA` satisfies the success
condition at time 50 (extracted by applying the success direction to the
concrete run). -/
theorem validate_token_success_iff_and_fault_kinds_witness :
    valid_token_spec_amended WA 50 (some "tokA") none = true :=
  (validate_token_success_iff_and_fault_kinds WA 50 (some "tokA") none false).1.mp
    ⟨(⟨"tokA", "u1", none, 1000⟩, ⟨"u1", "admin", some "pw", none, true, none⟩),
     by decide⟩

/-- C3 (amended): for a service-admin caller, `create_service` fails with
the conflict kind exactly when an existing service already has the same
*name* — the type is not consulted, so a same-name different-type request
is refused too — and on success the created row records the caller
(resolved by `validate_token`) as `owner_id`. -/
theorem create_service_conflict_on_name_and_owner
    (db : Database) (g : Globals) (now : Nat) (tok : Option String)
    (newId : String) (svc : ServiceIn) (t : DToken) (u : DUser)
    (p : DToken × DUser)
    (hv : validate_token db now tok none false = .ok (t, u))
    (hsa : validate_service_admin_token db g now tok = .ok p) :
    ((∃ s ∈ db.services, s.name = svc.name) →
       IdentityService_create_service db g now tok newId svc = .error .conflict) ∧
    ((∀ s ∈ db.services, s.name ≠ svc.name) →
       IdentityService_create_service db g now tok newId svc =
         .ok (service_create db ⟨newId, svc.name, svc.type, svc.description, u.id⟩,
              ⟨newId, svc.name, svc.type, svc.description, u.id⟩)) := by
  constructor
  · rintro ⟨s, hs, hname⟩
    have hsome : (service_get_by_name db svc.name).isSome = true := by
      simp only [service_get_by_name, List.find?_isSome]
      exact ⟨s, hs, by simp [hname]⟩
    simp [IdentityService_create_service, hsa, hsome]
  · intro hnone
    have hnot : service_get_by_name db svc.name = none := by
      simp only [service_get_by_name, List.find?_eq_none]
      intro s hs
      simpa using hnone s hs
    simp [IdentityService_create_service, hsa, hnot, hv]

/-- C3 witness: against `WA` (which holds service `("nova", "compute")`),
creating `("glance", "image")` through the admin token succeeds with
`owner_id = u1`, and a same-name request would conflict. -/
theorem create_service_conflict_on_name_and_owner_witness :
    ((∃ s ∈ WA.services, s.name = "glance") →
       IdentityService_create_service WA g0 50 (some "tokA") "s9" ⟨"glance", "image", "d"⟩ =
         .error .conflict) ∧
    ((∀ s ∈ WA.services, s.name ≠ "glance") →
       IdentityService_create_service WA g0 50 (some "tokA") "s9" ⟨"glance", "image", "d"⟩ =
         .ok (service_create WA ⟨"s9", "glance", "image", "d", "u1"⟩,
              ⟨"s9", "glance", "image", "d", "u1"⟩)) :=
  create_service_conflict_on_name_and_owner WA g0 50 (some "tokA") "s9"
    ⟨"glance", "image", "d"⟩ ⟨"tokA", "u1", none, 1000⟩
    ⟨"u1", "admin", some "pw", none, true, none⟩
    (⟨"tokA", "u1", none, 1000⟩, ⟨"u1", "admin", some "pw", none, true, none⟩)
    (by decide) (by decide)

/-- C9: for an admin caller, `delete_tenant` raises not-found for a missing
tenant; when the tenant exists it is refused with the forbidden kind
exactly while some UserRoleAssociation or some User references it, and
otherwise the tenant row is removed. -/
theorem delete_tenant_refuses_referenced_tenant
    (db : Database) (g : Globals) (now : Nat) (tok : Option String)
    (tid : String) (p : DToken × DUser)
    (hadmin : validate_admin_token db g now tok = .ok p) :
    (tenant_get db tid = none →
       IdentityService_delete_tenant db g now tok tid = .error .itemNotFound) ∧
    (∀ t, tenant_get db tid = some t →
       ((db.role_refs.any (fun r => r.tenant_id == some tid)
           || db.users.any (fun u => u.tenant_id == some tid)) = true →
          IdentityService_delete_tenant db g now tok tid = .error .forbidden) ∧
       ((db.role_refs.any (fun r => r.tenant_id == some tid)
           || db.users.any (fun u => u.tenant_id == some tid)) = false →
          IdentityService_delete_tenant db g now tok tid = .ok (tenant_delete db t.id) ∧
          ∀ t2 ∈ (tenant_delete db t.id).tenants, t2.id ≠ tid)) := by
  constructor
  · intro hno
    simp [IdentityService_delete_tenant, hadmin, hno]
  · intro t ht
    have htid : t.id = tid := by
      have hp := List.find?_some (show db.tenants.find? (fun x => x.id == tid) = some t from ht)
      simpa using hp
    constructor
    · intro href
      have hne : tenant_is_empty db tid = false := by
        rcases Bool.or_eq_true_iff.mp href with ha | hb
        · simp [tenant_is_empty, ha]
        · cases ha2 : db.role_refs.any (fun r => r.tenant_id == some tid) <;>
            simp [tenant_is_empty, ha2, hb]
      simp [IdentityService_delete_tenant, hadmin, ht, hne]
    · intro href
      obtain ⟨ha, hb⟩ := Bool.or_eq_false_iff.mp href
      have hemp : tenant_is_empty db tid = true := by
        simp [tenant_is_empty, ha, hb]
      refine ⟨by simp [IdentityService_delete_tenant, hadmin, ht, hemp], ?_⟩
      intro t2 ht2
      rw [← htid]
      have hft := (List.mem_filter.mp
        (show t2 ∈ db.tenants.filter (fun x => !(x.id == t.id)) from ht2)).2
      simpa using hft

/-- C9 witness: against `WA`, deleting tenant `t1` (referenced by user `u9`
and grant `ref2`) is forbidden, and the conclusion's conditions evaluate on
that concrete state. -/
theorem delete_tenant_refuses_referenced_tenant_witness :
    (tenant_get WA "t1" = none →
       IdentityService_delete_tenant WA g0 50 (some "tokA") "t1" = .error .itemNotFound) ∧
    (∀ t, tenant_get WA "t1" = some t →
       ((WA.role_refs.any (fun r => r.tenant_id == some "t1")
           || WA.users.any (fun u => u.tenant_id == some "t1")) = true →
          IdentityService_delete_tenant WA g0 50 (some "tokA") "t1" = .error .forbidden) ∧
       ((WA.role_refs.any (fun r => r.tenant_id == some "t1")
           || WA.users.any (fun u => u.tenant_id == some "t1")) = false →
          IdentityService_delete_tenant WA g0 50 (some "tokA") "t1" =
            .ok (tenant_delete WA t.id) ∧
          ∀ t2 ∈ (tenant_delete WA t.id).tenants, t2.id ≠ "t1")) :=
  delete_tenant_refuses_referenced_tenant WA g0 50 (some "tokA") "t1"
    (⟨"tokA", "u1", none, 1000⟩, ⟨"u1", "admin", some "pw", none, true, none⟩)
    (by decide)

/-- In a successful `_authenticate` run, the per-flow credential check
accepted the resolved user. -/
theorem authenticate_validate_accepted
    {db : Database} {g : Globals} {now : Nat} {newId : String}
    {validate : DUser → Except Fault Bool} {user_id : String}
    {tenant_id : Option String} {r : Database × AuthData}
    (h : IdentityService_authenticate db g now newId validate user_id tenant_id = .ok r) :
    ∃ duser, validate duser = .ok true := by
  simp only [IdentityService_authenticate] at h
  cases hu : (if truthy tenant_id then user_get_by_tenant db user_id (tenant_id.getD "")
              else user_get db user_id) with
  | none =>
    simp only [hu] at h
    cases h
  | some duser =>
    simp only [hu] at h
    cases he : duser.enabled with
    | false =>
      simp only [he, Bool.false_eq_true, if_false] at h
      cases h
    | true =>
      simp only [he, if_true] at h
      cases hv : validate duser with
      | error f =>
        simp only [hv] at h
        cases h
      | ok b =>
        cases b with
        | false =>
          simp only [hv, Bool.false_eq_true, if_false] at h
          cases h
        | true => exact ⟨duser, hv⟩

/-- C8: the EC2 credential check of `authenticate_ec2` accepts exactly when
the signature computed over the request as given matches, or the host
carries a port (a colon) and the signature recomputed once over the
port-stripped host matches; and any successful EC2 authentication for the
stored credentials implies the check accepted.  The hypothesis states the
host is well-formed: colon-free or exactly `host:port` (more than one colon
makes the source's tuple unpacking raise). -/
theorem ec2_signature_port_strip_fallback
    (gen : String → Ec2Creds → String) (secret : String) (c : Ec2Creds)
    (hh : pyContains c.host ':' = false ∨
          ∃ hpre hport, pySplit c.host ':' = [hpre, hport]) :
    (ec2_validate gen secret c = .ok true ↔
      (gen secret c = c.signature ∨
       (pyContains c.host ':' = true ∧
        gen secret { c with host := (pySplit c.host ':').headD c.host } =
          c.signature))) ∧
    (∀ db g now newId creds db2 ad,
       credentials_get_by_access db c.access = some creds →
       IdentityService_authenticate_ec2 db g now newId gen c = .ok (db2, ad) →
       ec2_validate gen creds.secret c = .ok true) := by
  constructor
  · by_cases h1 : gen secret c = c.signature
    · simp [ec2_validate, h1]
    · have h1b : (gen secret c == c.signature) = false := by simp [h1]
      cases hh with
      | inl hnc => simp [ec2_validate, h1b, hnc, h1]
      | inr hsp =>
        obtain ⟨hpre, hport, hs⟩ := hsp
        by_cases hc : pyContains c.host ':'
        · simp [ec2_validate, h1b, hc, hs, h1, beq_iff_eq]
        · simp [ec2_validate, h1b, hc, h1]
  · intro db g now newId creds db2 ad hcred hok
    simp only [IdentityService_authenticate_ec2, hcred] at hok
    obtain ⟨duser, hv⟩ := authenticate_validate_accepted hok
    exact hv

/-- C8 witness: under the concrete signer `genW`, the caller signed
`host = api.example.com` but transmitted `api.example.com:443`; the check
accepts through the port-strip retry (spec scenario S6). -/
theorem ec2_signature_port_strip_fallback_witness :
    (ec2_validate genW "SK"
        ⟨"AK", "SK|api.example.com", "api.example.com:443", "GET", "/", []⟩ = .ok true ↔
      (genW "SK" ⟨"AK", "SK|api.example.com", "api.example.com:443", "GET", "/", []⟩ =
         "SK|api.example.com" ∨
       (pyContains "api.example.com:443" ':' = true ∧
        genW "SK"
          ⟨"AK", "SK|api.example.com",
           (pySplit "api.example.com:443" ':').headD "api.example.com:443",
           "GET", "/", []⟩ = "SK|api.example.com"))) ∧
    (∀ db g now newId creds db2 ad,
       credentials_get_by_access db "AK" = some creds →
       IdentityService_authenticate_ec2 db g now newId genW
         ⟨"AK", "SK|api.example.com", "api.example.com:443", "GET", "/", []⟩ =
           .ok (db2, ad) →
       ec2_validate genW creds.secret
         ⟨"AK", "SK|api.example.com", "api.example.com:443", "GET", "/", []⟩ = .ok true) :=
  ec2_signature_port_strip_fallback genW "SK"
    ⟨"AK", "SK|api.example.com", "api.example.com:443", "GET", "/", []⟩
    (Or.inr ⟨"api.example.com", "443", by decide⟩)

/-- C7 (amended): with no token header the middleware rejects with the 401
`WWW-Authenticate: Keystone uri='...'` challenge, or in delay mode stamps
`X-Identity-Status: Invalid` and forwards; a token the identity service
rejects yields, in delay mode, the same Invalid stamp-and-forward, and
otherwise a bare 401 *without* the challenge (`_reject_claims`); a
validated token is forwarded with `X-Identity-Status: Confirmed` and the
identity headers. -/
theorem middleware_decision_modes
    (conf : MwConf) (verify : String → Option MwClaims)
    (xat xst : Option String) :
    (truthy (match xat with | some c => some c | none => xst) = false →
       (conf.delay_auth_decision = true →
          AuthProtocol_call conf verify xat xst =
            .forward (forward_headers conf [("X_IDENTITY_STATUS", .vstr "Invalid")])) ∧
       (conf.delay_auth_decision = false →
          AuthProtocol_call conf verify xat xst =
            .rejectRequest ("Keystone uri=\x27" ++ conf.auth_location ++ "\x27"))) ∧
    (truthy (match xat with | some c => some c | none => xst) = true →
       (verify ((match xat with | some c => some c | none => xst).getD "") = none →
          (conf.delay_auth_decision = true →
             AuthProtocol_call conf verify xat xst =
               .forward (forward_headers conf [("X_IDENTITY_STATUS", .vstr "Invalid")])) ∧
          (conf.delay_auth_decision = false →
             AuthProtocol_call conf verify xat xst = .rejectClaims)) ∧
       (∀ cl, verify ((match xat with | some c => some c | none => xst).getD "") = some cl →
          AuthProtocol_call conf verify xat xst =
            .forward (forward_headers conf (identity_headers cl)))) := by
  constructor
  · intro hno
    constructor
    · intro hd
      simp [AuthProtocol_call, hno, hd]
    · intro hd
      simp [AuthProtocol_call, hno, hd]
  · intro hyes
    constructor
    · intro hrej
      constructor
      · intro hd
        simp [AuthProtocol_call, hyes, hrej, hd]
      · intro hd
        simp [AuthProtocol_call, hyes, hrej, hd]
    · intro cl hcl
      simp [AuthProtocol_call, hyes, hcl]

/-- C7 witness: with delay off, a request carrying a token the identity
service validates is forwarded with the Confirmed stamp and the identity
headers. -/
theorem middleware_decision_modes_witness :
    (truthy (match (some "tok" : Option String) with
             | some c => some c
             | none => (none : Option String)) = false →
       (confNoDelay.delay_auth_decision = true →
          AuthProtocol_call confNoDelay
            (fun _ => some ⟨"u1", "alice", some "t1", some "acme", ["Member"], none⟩)
            (some "tok") none =
            .forward (forward_headers confNoDelay
              [("X_IDENTITY_STATUS", .vstr "Invalid")])) ∧
       (confNoDelay.delay_auth_decision = false →
          AuthProtocol_call confNoDelay
            (fun _ => some ⟨"u1", "alice", some "t1", some "acme", ["Member"], none⟩)
            (some "tok") none =
            .rejectRequest ("Keystone uri=\x27" ++ confNoDelay.auth_location ++ "\x27"))) ∧
    (truthy (match (some "tok" : Option String) with
             | some c => some c
             | none => (none : Option String)) = true →
       ((fun _ => some (⟨"u1", "alice", some "t1", some "acme", ["Member"], none⟩ : MwClaims))
          ((match (some "tok" : Option String) with
            | some c => some c
            | none => (none : Option String)).getD "") = none →
          (confNoDelay.delay_auth_decision = true →
             AuthProtocol_call confNoDelay
               (fun _ => some ⟨"u1", "alice", some "t1", some "acme", ["Member"], none⟩)
               (some "tok") none =
               .forward (forward_headers confNoDelay
                 [("X_IDENTITY_STATUS", .vstr "Invalid")])) ∧
          (confNoDelay.delay_auth_decision = false →
             AuthProtocol_call confNoDelay
               (fun _ => some ⟨"u1", "alice", some "t1", some "acme", ["Member"], none⟩)
               (some "tok") none = .rejectClaims)) ∧
       (∀ cl, (fun _ => some (⟨"u1", "alice", some "t1", some "acme", ["Member"], none⟩ : MwClaims))
            ((match (some "tok" : Option String) with
              | some c => some c
              | none => (none : Option String)).getD "") = some cl →
          AuthProtocol_call confNoDelay
            (fun _ => some ⟨"u1", "alice", some "t1", some "acme", ["Member"], none⟩)
            (some "tok") none =
            .forward (forward_headers confNoDelay (identity_headers cl)))) :=
  middleware_decision_modes confNoDelay
    (fun _ => some ⟨"u1", "alice", some "t1", some "acme", ["Member"], none⟩)
    (some "tok") none

/-! ### Cascade lemmas for `delete_service` (C5) -/

theorem epfold_endpoints_mem {l : List DEndpoint} {d : Database} {e : DEndpoint}
    (h : e ∈ (l.foldl (fun dd ep => endpoint_delete dd ep.id) d).endpoints) :
    e ∈ d.endpoints := by
  induction l generalizing d with
  | nil => exact h
  | cons ep rest ih =>
    have h2 := ih (d := endpoint_delete d ep.id) h
    exact (List.mem_filter.mp h2).1

theorem epfold_endpoints_not_id {l : List DEndpoint} {d : Database} {x : DEndpoint}
    (hx : x ∈ l) {e : DEndpoint}
    (h : e ∈ (l.foldl (fun dd ep => endpoint_delete dd ep.id) d).endpoints) :
    ¬ (e.id = x.id) := by
  induction l generalizing d with
  | nil => cases hx
  | cons ep rest ih =>
    rcases List.mem_cons.mp hx with hx1 | hx2
    · subst hx1
      have h2 := epfold_endpoints_mem (d := endpoint_delete d x.id) h
      have := (List.mem_filter.mp h2).2
      simpa using this
    · exact ih hx2 (d := endpoint_delete d ep.id) h

theorem epfold_clear {d : Database} {i : String} {e : DEndpoint}
    (h : e ∈ ((endpoint_get_by_endpoint_template d i).foldl
            (fun dd ep => endpoint_delete dd ep.id) d).endpoints) :
    e ∈ d.endpoints ∧ ¬ (e.endpoint_template_id = i) := by
  have hmem := epfold_endpoints_mem h
  refine ⟨hmem, ?_⟩
  intro hti
  have hin : e ∈ endpoint_get_by_endpoint_template d i := by
    simp [endpoint_get_by_endpoint_template, List.mem_filter, hmem, hti]
  exact epfold_endpoints_not_id hin h rfl

theorem epfold_endpoint_templates {l : List DEndpoint} {d : Database} :
    (l.foldl (fun dd ep => endpoint_delete dd ep.id) d).endpoint_templates =
      d.endpoint_templates := by
  induction l generalizing d with
  | nil => rfl
  | cons ep rest ih => exact ih (d := endpoint_delete d ep.id)

theorem epfold_roles {l : List DEndpoint} {d : Database} :
    (l.foldl (fun dd ep => endpoint_delete dd ep.id) d).roles = d.roles := by
  induction l generalizing d with
  | nil => rfl
  | cons ep rest ih => exact ih (d := endpoint_delete d ep.id)

theorem epfold_role_refs {l : List DEndpoint} {d : Database} :
    (l.foldl (fun dd ep => endpoint_delete dd ep.id) d).role_refs = d.role_refs := by
  induction l generalizing d with
  | nil => rfl
  | cons ep rest ih => exact ih (d := endpoint_delete d ep.id)

theorem epfold_services {l : List DEndpoint} {d : Database} :
    (l.foldl (fun dd ep => endpoint_delete dd ep.id) d).services = d.services := by
  induction l generalizing d with
  | nil => rfl
  | cons ep rest ih => exact ih (d := endpoint_delete d ep.id)

theorem tfold_endpoints_mem {l : List DEndpointTemplate} {db : Database} {e : DEndpoint}
    (h : e ∈ (l.foldl (fun d et =>
          endpoint_template_delete
            ((endpoint_get_by_endpoint_template d et.id).foldl
              (fun dd ep => endpoint_delete dd ep.id) d) et.id) db).endpoints) :
    e ∈ db.endpoints := by
  induction l generalizing db with
  | nil => exact h
  | cons et rest ih =>
    have h2 := ih h
    exact epfold_endpoints_mem h2

theorem tfold_templates_mem {l : List DEndpointTemplate} {db : Database}
    {t : DEndpointTemplate}
    (h : t ∈ (l.foldl (fun d et =>
          endpoint_template_delete
            ((endpoint_get_by_endpoint_template d et.id).foldl
              (fun dd ep => endpoint_delete dd ep.id) d) et.id) db).endpoint_templates) :
    t ∈ db.endpoint_templates := by
  induction l generalizing db with
  | nil => exact h
  | cons et rest ih =>
    have h2 := ih h
    have h3 := (List.mem_filter.mp h2).1
    rw [epfold_endpoint_templates] at h3
    exact h3

theorem tfold_endpoints_clear {l : List DEndpointTemplate} {db : Database}
    {x : DEndpointTemplate} (hx : x ∈ l) {e : DEndpoint}
    (h : e ∈ (l.foldl (fun d et =>
          endpoint_template_delete
            ((endpoint_get_by_endpoint_template d et.id).foldl
              (fun dd ep => endpoint_delete dd ep.id) d) et.id) db).endpoints) :
    ¬ (e.endpoint_template_id = x.id) := by
  induction l generalizing db with
  | nil => cases hx
  | cons et rest ih =>
    rcases List.mem_cons.mp hx with hx1 | hx2
    · subst hx1
      have h2 : e ∈ (endpoint_template_delete
          ((endpoint_get_by_endpoint_template db x.id).foldl
            (fun dd ep => endpoint_delete dd ep.id) db) x.id).endpoints :=
        tfold_endpoints_mem (l := rest) h
      exact (epfold_clear h2).2
    · exact ih hx2 h

theorem tfold_templates_clear {l : List DEndpointTemplate} {db : Database}
    {x : DEndpointTemplate} (hx : x ∈ l) {t : DEndpointTemplate}
    (h : t ∈ (l.foldl (fun d et =>
          endpoint_template_delete
            ((endpoint_get_by_endpoint_template d et.id).foldl
              (fun dd ep => endpoint_delete dd ep.id) d) et.id) db).endpoint_templates) :
    ¬ (t.id = x.id) := by
  induction l generalizing db with
  | nil => cases hx
  | cons et rest ih =>
    rcases List.mem_cons.mp hx with hx1 | hx2
    · subst hx1
      have h2 : t ∈ (endpoint_template_delete
          ((endpoint_get_by_endpoint_template db x.id).foldl
            (fun dd ep => endpoint_delete dd ep.id) db) x.id).endpoint_templates :=
        tfold_templates_mem (l := rest) h
      have h3 := (List.mem_filter.mp h2).2
      simpa using h3
    · exact ih hx2 h

theorem tfold_roles {l : List DEndpointTemplate} {db : Database} :
    (l.foldl (fun d et =>
        endpoint_template_delete
          ((endpoint_get_by_endpoint_template d et.id).foldl
            (fun dd ep => endpoint_delete dd ep.id) d) et.id) db).roles = db.roles := by
  induction l generalizing db with
  | nil => rfl
  | cons et rest ih => exact ih.trans epfold_roles

theorem tfold_role_refs {l : List DEndpointTemplate} {db : Database} :
    (l.foldl (fun d et =>
        endpoint_template_delete
          ((endpoint_get_by_endpoint_template d et.id).foldl
            (fun dd ep => endpoint_delete dd ep.id) d) et.id) db).role_refs =
      db.role_refs := by
  induction l generalizing db with
  | nil => rfl
  | cons et rest ih => exact ih.trans epfold_role_refs

theorem tfold_services {l : List DEndpointTemplate} {db : Database} :
    (l.foldl (fun d et =>
        endpoint_template_delete
          ((endpoint_get_by_endpoint_template d et.id).foldl
            (fun dd ep => endpoint_delete dd ep.id) d) et.id) db).services =
      db.services := by
  induction l generalizing db with
  | nil => rfl
  | cons et rest ih => exact ih.trans epfold_services

theorem reffold_refs_mem {l : List DUserRoleAssociation} {d : Database}
    {rr : DUserRoleAssociation}
    (h : rr ∈ (l.foldl (fun dd r => ref_delete dd r.id) d).role_refs) :
    rr ∈ d.role_refs := by
  induction l generalizing d with
  | nil => exact h
  | cons r rest ih =>
    have h2 := ih (d := ref_delete d r.id) h
    exact (List.mem_filter.mp h2).1

theorem reffold_refs_not_id {l : List DUserRoleAssociation} {d : Database}
    {x : DUserRoleAssociation} (hx : x ∈ l) {rr : DUserRoleAssociation}
    (h : rr ∈ (l.foldl (fun dd r => ref_delete dd r.id) d).role_refs) :
    ¬ (rr.id = x.id) := by
  induction l generalizing d with
  | nil => cases hx
  | cons r rest ih =>
    rcases List.mem_cons.mp hx with hx1 | hx2
    · subst hx1
      have h2 := reffold_refs_mem (d := ref_delete d x.id) h
      have := (List.mem_filter.mp h2).2
      simpa using this
    · exact ih hx2 (d := ref_delete d r.id) h

theorem reffold_clear {d : Database} {i : String} {rr : DUserRoleAssociation}
    (h : rr ∈ ((ref_get_by_role d i).foldl
            (fun dd r => ref_delete dd r.id) d).role_refs) :
    rr ∈ d.role_refs ∧ ¬ (rr.role_id = i) := by
  have hmem := reffold_refs_mem h
  refine ⟨hmem, ?_⟩
  intro hri
  have hin : rr ∈ ref_get_by_role d i := by
    simp [ref_get_by_role, List.mem_filter, hmem, hri]
  exact reffold_refs_not_id hin h rfl

theorem reffold_roles {l : List DUserRoleAssociation} {d : Database} :
    (l.foldl (fun dd r => ref_delete dd r.id) d).roles = d.roles := by
  induction l generalizing d with
  | nil => rfl
  | cons r rest ih => exact ih (d := ref_delete d r.id)

theorem reffold_endpoints {l : List DUserRoleAssociation} {d : Database} :
    (l.foldl (fun dd r => ref_delete dd r.id) d).endpoints = d.endpoints := by
  induction l generalizing d with
  | nil => rfl
  | cons r rest ih => exact ih (d := ref_delete d r.id)

theorem reffold_endpoint_templates {l : List DUserRoleAssociation} {d : Database} :
    (l.foldl (fun dd r => ref_delete dd r.id) d).endpoint_templates =
      d.endpoint_templates := by
  induction l generalizing d with
  | nil => rfl
  | cons r rest ih => exact ih (d := ref_delete d r.id)

theorem reffold_services {l : List DUserRoleAssociation} {d : Database} :
    (l.foldl (fun dd r => ref_delete dd r.id) d).services = d.services := by
  induction l generalizing d with
  | nil => rfl
  | cons r rest ih => exact ih (d := ref_delete d r.id)

theorem rfold_refs_mem {l : List DRole} {db : Database} {rr : DUserRoleAssociation}
    (h : rr ∈ (l.foldl (fun d role =>
          role_delete
            ((ref_get_by_role d role.id).foldl
              (fun dd r => ref_delete dd r.id) d) role.id) db).role_refs) :
    rr ∈ db.role_refs := by
  induction l generalizing db with
  | nil => exact h
  | cons role rest ih =>
    have h2 := ih h
    exact reffold_refs_mem h2

theorem rfold_roles_mem {l : List DRole} {db : Database} {ro : DRole}
    (h : ro ∈ (l.foldl (fun d role =>
          role_delete
            ((ref_get_by_role d role.id).foldl
              (fun dd r => ref_delete dd r.id) d) role.id) db).roles) :
    ro ∈ db.roles := by
  induction l generalizing db with
  | nil => exact h
  | cons role rest ih =>
    have h2 := ih h
    have h3 := (List.mem_filter.mp h2).1
    rw [reffold_roles] at h3
    exact h3

theorem rfold_refs_clear {l : List DRole} {db : Database}
    {x : DRole} (hx : x ∈ l) {rr : DUserRoleAssociation}
    (h : rr ∈ (l.foldl (fun d role =>
          role_delete
            ((ref_get_by_role d role.id).foldl
              (fun dd r => ref_delete dd r.id) d) role.id) db).role_refs) :
    ¬ (rr.role_id = x.id) := by
  induction l generalizing db with
  | nil => cases hx
  | cons role rest ih =>
    rcases List.mem_cons.mp hx with hx1 | hx2
    · subst hx1
      have h2 : rr ∈ (role_delete
          ((ref_get_by_role db x.id).foldl
            (fun dd r => ref_delete dd r.id) db) x.id).role_refs :=
        rfold_refs_mem (l := rest) h
      exact (reffold_clear h2).2
    · exact ih hx2 h

theorem rfold_roles_clear {l : List DRole} {db : Database}
    {x : DRole} (hx : x ∈ l) {ro : DRole}
    (h : ro ∈ (l.foldl (fun d role =>
          role_delete
            ((ref_get_by_role d role.id).foldl
              (fun dd r => ref_delete dd r.id) d) role.id) db).roles) :
    ¬ (ro.id = x.id) := by
  induction l generalizing db with
  | nil => cases hx
  | cons role rest ih =>
    rcases List.mem_cons.mp hx with hx1 | hx2
    · subst hx1
      have h2 : ro ∈ (role_delete
          ((ref_get_by_role db x.id).foldl
            (fun dd r => ref_delete dd r.id) db) x.id).roles :=
        rfold_roles_mem (l := rest) h
      have h3 := (List.mem_filter.mp h2).2
      simpa using h3
    · exact ih hx2 h

theorem rfold_endpoints {l : List DRole} {db : Database} :
    (l.foldl (fun d role =>
        role_delete
          ((ref_get_by_role d role.id).foldl
            (fun dd r => ref_delete dd r.id) d) role.id) db).endpoints =
      db.endpoints := by
  induction l generalizing db with
  | nil => rfl
  | cons role rest ih => exact ih.trans reffold_endpoints

theorem rfold_endpoint_templates {l : List DRole} {db : Database} :
    (l.foldl (fun d role =>
        role_delete
          ((ref_get_by_role d role.id).foldl
            (fun dd r => ref_delete dd r.id) d) role.id) db).endpoint_templates =
      db.endpoint_templates := by
  induction l generalizing db with
  | nil => rfl
  | cons role rest ih => exact ih.trans reffold_endpoint_templates

theorem rfold_services {l : List DRole} {db : Database} :
    (l.foldl (fun d role =>
        role_delete
          ((ref_get_by_role d role.id).foldl
            (fun dd r => ref_delete dd r.id) d) role.id) db).services =
      db.services := by
  induction l generalizing db with
  | nil => rfl
  | cons role rest ih => exact ih.trans reffold_services

/-- C5: after a successful `delete_service`, no endpoint template of the
resulting state references the service, no endpoint references any
endpoint template that referenced the service, no role references the
service, no role grant references any role that referenced the service,
and the service row itself is gone. -/
theorem delete_service_cascade
    (db : Database) (g : Globals) (now : Nat) (tok : Option String)
    (sid : String) (db2 : Database)
    (h : IdentityService_delete_service db g now tok sid = .ok db2) :
    (∀ et ∈ db2.endpoint_templates, et.service_id ≠ sid) ∧
    (∀ e ∈ db2.endpoints, ∀ et ∈ db.endpoint_templates,
       et.service_id = sid → e.endpoint_template_id ≠ et.id) ∧
    (∀ r ∈ db2.roles, r.service_id ≠ some sid) ∧
    (∀ rr ∈ db2.role_refs, ∀ r ∈ db.roles,
       r.service_id = some sid → rr.role_id ≠ r.id) ∧
    (∀ s ∈ db2.services, s.id ≠ sid) := by
  simp only [IdentityService_delete_service] at h
  cases hsa : validate_service_admin_token db g now tok with
  | error f =>
    simp only [hsa] at h
    cases h
  | ok p =>
    simp only [hsa] at h
    cases hsg : service_get db sid with
    | none =>
      simp only [hsg] at h
      cases h
    | some sv =>
      simp only [hsg] at h
      injection h with h2
      subst h2
      refine ⟨?_, ?_, ?_, ?_, ?_⟩
      · intro et het heq
        have het1 : et ∈ ((role_get_by_service
            ((endpoint_template_get_by_service db sid).foldl
              (fun d et => endpoint_template_delete
                ((endpoint_get_by_endpoint_template d et.id).foldl
                  (fun dd ep => endpoint_delete dd ep.id) d) et.id) db) sid).foldl
            (fun d role => role_delete
              ((ref_get_by_role d role.id).foldl
                (fun dd r => ref_delete dd r.id) d) role.id)
            ((endpoint_template_get_by_service db sid).foldl
              (fun d et => endpoint_template_delete
                ((endpoint_get_by_endpoint_template d et.id).foldl
                  (fun dd ep => endpoint_delete dd ep.id) d) et.id) db)).endpoint_templates :=
          het
        rw [rfold_endpoint_templates] at het1
        have hmem : et ∈ db.endpoint_templates := tfold_templates_mem het1
        have hin : et ∈ endpoint_template_get_by_service db sid := by
          simp [endpoint_template_get_by_service, List.mem_filter, hmem, heq]
        exact tfold_templates_clear hin het1 rfl
      · intro e he et het heq
        have he1 : e ∈ ((role_get_by_service
            ((endpoint_template_get_by_service db sid).foldl
              (fun d et => endpoint_template_delete
                ((endpoint_get_by_endpoint_template d et.id).foldl
                  (fun dd ep => endpoint_delete dd ep.id) d) et.id) db) sid).foldl
            (fun d role => role_delete
              ((ref_get_by_role d role.id).foldl
                (fun dd r => ref_delete dd r.id) d) role.id)
            ((endpoint_template_get_by_service db sid).foldl
              (fun d et => endpoint_template_delete
                ((endpoint_get_by_endpoint_template d et.id).foldl
                  (fun dd ep => endpoint_delete dd ep.id) d) et.id) db)).endpoints :=
          he
        rw [rfold_endpoints] at he1
        have hin : et ∈ endpoint_template_get_by_service db sid := by
          simp [endpoint_template_get_by_service, List.mem_filter, het, heq]
        exact tfold_endpoints_clear hin he1
      · intro r hr heq
        have hr1 : r ∈ ((role_get_by_service
            ((endpoint_template_get_by_service db sid).foldl
              (fun d et => endpoint_template_delete
                ((endpoint_get_by_endpoint_template d et.id).foldl
                  (fun dd ep => endpoint_delete dd ep.id) d) et.id) db) sid).foldl
            (fun d role => role_delete
              ((ref_get_by_role d role.id).foldl
                (fun dd r => ref_delete dd r.id) d) role.id)
            ((endpoint_template_get_by_service db sid).foldl
              (fun d et => endpoint_template_delete
                ((endpoint_get_by_endpoint_template d et.id).foldl
                  (fun dd ep => endpoint_delete dd ep.id) d) et.id) db)).roles :=
          hr
        have hmem : r ∈ ((endpoint_template_get_by_service db sid).foldl
            (fun d et => endpoint_template_delete
              ((endpoint_get_by_endpoint_template d et.id).foldl
                (fun dd ep => endpoint_delete dd ep.id) d) et.id) db).roles :=
          rfold_roles_mem hr1
        have hin : r ∈ role_get_by_service
            ((endpoint_template_get_by_service db sid).foldl
              (fun d et => endpoint_template_delete
                ((endpoint_get_by_endpoint_template d et.id).foldl
                  (fun dd ep => endpoint_delete dd ep.id) d) et.id) db) sid := by
          simp [role_get_by_service, List.mem_filter, hmem, heq]
        exact rfold_roles_clear hin hr1 rfl
      · intro rr hrr r hr heq
        have hrr1 : rr ∈ ((role_get_by_service
            ((endpoint_template_get_by_service db sid).foldl
              (fun d et => endpoint_template_delete
                ((endpoint_get_by_endpoint_template d et.id).foldl
                  (fun dd ep => endpoint_delete dd ep.id) d) et.id) db) sid).foldl
            (fun d role => role_delete
              ((ref_get_by_role d role.id).foldl
                (fun dd r => ref_delete dd r.id) d) role.id)
            ((endpoint_template_get_by_service db sid).foldl
              (fun d et => endpoint_template_delete
                ((endpoint_get_by_endpoint_template d et.id).foldl
                  (fun dd ep => endpoint_delete dd ep.id) d) et.id) db)).role_refs :=
          hrr
        have hrtf : r ∈ ((endpoint_template_get_by_service db sid).foldl
            (fun d et => endpoint_template_delete
              ((endpoint_get_by_endpoint_template d et.id).foldl
                (fun dd ep => endpoint_delete dd ep.id) d) et.id) db).roles := by
          rw [tfold_roles]
          exact hr
        have hin : r ∈ role_get_by_service
            ((endpoint_template_get_by_service db sid).foldl
              (fun d et => endpoint_template_delete
                ((endpoint_get_by_endpoint_template d et.id).foldl
                  (fun dd ep => endpoint_delete dd ep.id) d) et.id) db) sid := by
          simp [role_get_by_service, List.mem_filter, hrtf, heq]
        exact rfold_refs_clear hin hrr1
      · intro s hs
        have hf := (List.mem_filter.mp hs).2
        simpa using hf

/-- C5 witness: deleting `s1` from `WA` leaves `WAexp`, with no endpoint
template, endpoint, role, or role grant tied to `s1` remaining (spec
scenario S5). -/
theorem delete_service_cascade_witness :
    (∀ et ∈ WAexp.endpoint_templates, et.service_id ≠ "s1") ∧
    (∀ e ∈ WAexp.endpoints, ∀ et ∈ WA.endpoint_templates,
       et.service_id = "s1" → e.endpoint_template_id ≠ et.id) ∧
    (∀ r ∈ WAexp.roles, r.service_id ≠ some "s1") ∧
    (∀ rr ∈ WAexp.role_refs, ∀ r ∈ WA.roles,
       r.service_id = some "s1" → rr.role_id ≠ r.id) ∧
    (∀ s ∈ WAexp.services, s.id ≠ "s1") :=
  delete_service_cascade WA g0 50 (some "tokA") "s1" WAexp (by decide)
